import Mathlib

/-!
Verification of the RoadVoice-data location pipeline.

This file gives a shallow embedding, in Lean, of the JavaScript sources
`scripts/extract-brand.js`, `scripts/validate-state-boundaries.js`,
`scripts/validate-cities.js` and of the embedded `extract-osm-brand` script,
and proves or refutes the specified properties of the pipeline.

Modelling conventions:
* JavaScript numbers (coordinates) are modelled as exact rationals `ℚ`;
  `Math.round`, `toFixed` and `parseFloat` are modelled by their specified
  rounding rules on rationals.
* JavaScript strings are Lean `String`s; the regular-expression based
  transformations of the source are implemented as explicit character-list
  scanners that mirror the left-to-right, non-overlapping `String.replace`
  semantics of the corresponding regexes.  `\w` and `\b` in JavaScript are
  ASCII-only (`[A-Za-z0-9_]`), which the scanners reproduce.
* `toUpperCase`/`toLowerCase` are modelled on the Basic Latin and Latin-1
  letter repertoire (the repertoire occurring in the data and in the source
  tables); letters outside it are left unchanged.
* External reference data that is loaded from files at run time
  (postal-code index, city-alias table, bounding-box table, valid-city set)
  is passed as an explicit parameter, as in the spec's ReferenceDataStore.
-/

set_option maxRecDepth 1000000

set_option allowUnsafeReducibility true

attribute [semireducible] Rat.add Rat.mul Rat.div Rat.sub Rat.neg Rat.inv
  Rat.ofScientific

/-! ## Character-level helpers (JS semantics) -/

/-- JS whitespace class `\s` restricted to the characters that can occur in
the data: space, tab, LF, CR, VT, FF and NBSP. -/
def jsIsWs (c : Char) : Bool :=
  c = ' ' || c = '\t' || c = '\n' || c = '\x0d' || c = '\x0b' || c = '\x0c' ||
  c = '\xa0'

/-- JS word character `\w` (ASCII-only, as in non-unicode JS regexes). -/
def isWordChar (c : Char) : Bool :=
  ('a' ≤ c && c ≤ 'z') || ('A' ≤ c && c ≤ 'Z') || ('0' ≤ c && c ≤ '9') || c = '_'

def isAsciiLower (c : Char) : Bool := 'a' ≤ c && c ≤ 'z'

def isAsciiUpper (c : Char) : Bool := 'A' ≤ c && c ≤ 'Z'

def isDigitChar (c : Char) : Bool := '0' ≤ c && c ≤ '9'

/-- `String.prototype.toLowerCase` on the Basic Latin + Latin-1 letters
(simple one-to-one mappings; ß and ÿ have no Latin-1 counterpart and are
left unchanged, they do not occur in the data). -/
def jsToLowerChar (c : Char) : Char :=
  if 'A' ≤ c && c ≤ 'Z' then Char.ofNat (c.toNat + 32)
  else if '\xc0' ≤ c && c ≤ '\xde' && c ≠ '\xd7' then Char.ofNat (c.toNat + 32)
  else c

/-- `String.prototype.toUpperCase` on the Basic Latin + Latin-1 letters. -/
def jsToUpperChar (c : Char) : Char :=
  if 'a' ≤ c && c ≤ 'z' then Char.ofNat (c.toNat - 32)
  else if '\xe0' ≤ c && c ≤ '\xfe' && c ≠ '\xf7' then Char.ofNat (c.toNat - 32)
  else c

def jsToLower (s : String) : String := ⟨s.data.map jsToLowerChar⟩

def jsToUpper (s : String) : String := ⟨s.data.map jsToUpperChar⟩

/-- Case-insensitive character equality, via lowercasing (as JS `/i`). -/
def ciEq (a b : Char) : Bool := jsToLowerChar a = jsToLowerChar b

/-- Drop leading JS whitespace. -/
def dropLeadingWs (l : List Char) : List Char := l.dropWhile jsIsWs

/-- Drop trailing JS whitespace. -/
def dropTrailingWs (l : List Char) : List Char :=
  (l.reverse.dropWhile jsIsWs).reverse

/-- `String.prototype.trim`. -/
def jsTrim (s : String) : String :=
  ⟨dropTrailingWs (dropLeadingWs s.data)⟩

/-- Case-insensitive list prefix test. -/
def ciIsPrefix : List Char → List Char → Bool
  | [], _ => true
  | _ :: _, [] => false
  | p :: ps, c :: cs => ciEq p c && ciIsPrefix ps cs

/-- Case-insensitive substring containment (`String.prototype.includes` after
both sides were lowercased, as the source does). -/
def ciContains (hay : List Char) (needle : List Char) : Bool :=
  match hay with
  | [] => ciIsPrefix needle []
  | _ :: t => ciIsPrefix needle hay || ciContains t needle

/-- Exact (case-sensitive) substring containment, `String.prototype.includes`. -/
def strContains (s pat : String) : Bool := ciContains' s.data pat.data
where ciContains' : List Char → List Char → Bool
  | hay, needle =>
    match hay with
    | [] => needle.isEmpty
    | _ :: t => List.isPrefixOf needle hay || ciContains' t needle

/-- Case-insensitive `endsWith`. -/
def ciEndsWith (s : String) (suf : String) : Bool :=
  ciIsPrefix suf.data.reverse s.data.reverse

/-- Case-sensitive `String.prototype.endsWith`. -/
def csEndsWith (s : String) (suf : String) : Bool :=
  List.isPrefixOf suf.data.reverse s.data.reverse

/-- Case-sensitive `String.prototype.startsWith`. -/
def csStartsWith (s : String) (pre : String) : Bool :=
  List.isPrefixOf pre.data s.data

/-- Split a character list on every occurrence of a separator character,
the semantics of JS `String.prototype.split(sep)` for a one-character
separator (consecutive separators yield empty fragments). -/
def splitOnChar (sep : Char) : List Char → List (List Char)
  | [] => [[]]
  | c :: t =>
    match splitOnChar sep t with
    | [] => [[]]
    | h :: r => if c = sep then [] :: h :: r else (c :: h) :: r

/-- JS `s.split(sep)` for a one-character separator. -/
def jsSplit (s : String) (sep : Char) : List String :=
  (splitOnChar sep s.data).map fun l => ⟨l⟩

/-! ## Rounding helpers (JS number semantics on rationals) -/

/-- `Math.round` (round half toward +∞). -/
def mathRound (q : ℚ) : ℤ := ⌊q + 1/2⌋

/-- `Math.round(q * 1e6) / 1e6` as used for ATP coordinates. -/
def round6 (q : ℚ) : ℚ := (mathRound (q * 1000000) : ℚ) / 1000000

/-- The integer of digits produced by `Number.prototype.toFixed(d)`:
`toFixed` takes the magnitude, scales by `10^d`, and rounds to the nearest
integer, ties away from zero. -/
def toFixedInt (d : ℕ) (q : ℚ) : ℤ := ⌊|q| * (10 : ℚ) ^ d + 1/2⌋

/-- The string produced by `toFixed(d)`, modelled as sign-presence plus the
digit value (two `toFixed(d)` strings are equal iff these pairs are equal). -/
def toFixedKey (d : ℕ) (q : ℚ) : Bool × ℤ := (decide (q < 0), toFixedInt d q)

/-- `parseFloat(q.toFixed(d))` as an exact rational. -/
def toFixedVal (d : ℕ) (q : ℚ) : ℚ :=
  (if q < 0 then -1 else 1) * (toFixedInt d q : ℚ) / (10 : ℚ) ^ d

/-! ## `validate-state-boundaries.js` -/

/-- A state bounding box, as parsed from `StateBoundaries.txt`
(fields in the file's order: north, south, east, west). -/
structure Bounds where
  north : ℚ
  south : ℚ
  east : ℚ
  west : ℚ
deriving Repr, DecidableEq

/-- A canonical location record (`{lat, lon, city, state, address, name}`). -/
structure Location where
  lat : ℚ
  lon : ℚ
  city : String
  state : String
  address : String
  name : String
deriving Repr, DecidableEq

/-- Lookup of `boundaries[state]` in the loaded bounding-box table. -/
def lookupBounds : List (String × Bounds) → String → Option Bounds
  | [], _ => none
  | (k, b) :: t, s => if k = s then some b else lookupBounds t s

/-- `isInState(lat, lon, bounds)` from `validate-state-boundaries.js`
(lines 65-77), including the Alaska antimeridian special case. -/
def isInState (lat lon : ℚ) (bounds : Bounds) : Bool :=
  if bounds.west > 0 && bounds.east < 0 then
    let lonInRange := lon ≥ bounds.west || lon ≤ bounds.east
    lat ≤ bounds.north && lat ≥ bounds.south && lonInRange
  else
    lat ≤ bounds.north && lat ≥ bounds.south &&
      lon ≤ bounds.east && lon ≥ bounds.west

/-- `findActualState(lat, lon, boundaries)` (lines 80-88). -/
def findActualState (lat lon : ℚ) (boundaries : List (String × Bounds)) :
    List String :=
  (boundaries.filter (fun p => isInState lat lon p.2)).map Prod.fst

/-- One row of `state_boundary_errors.txt`. -/
structure BoundaryMismatch where
  city : String
  statedState : String
  actualStates : String
  lat : ℚ
  lon : ℚ
  address : String
deriving Repr, DecidableEq

/-- The main validation loop of `validate-state-boundaries.js`
(lines 103-131): locations whose state has no bounding box are skipped;
locations outside their stated state's box are reported, together with the
states actually containing the point (or `NONE`). -/
def stateBoundaryErrors (boundaries : List (String × Bounds))
    (locs : List Location) : List BoundaryMismatch :=
  locs.filterMap fun loc =>
    match lookupBounds boundaries loc.state with
    | none => none
    | some bounds =>
      if isInState loc.lat loc.lon bounds then none
      else
        let actual := findActualState loc.lat loc.lon boundaries
        some { city := if loc.city = "" then "(empty)" else loc.city
               statedState := loc.state
               actualStates :=
                 if actual.length > 0 then String.intercalate "/" actual
                 else "NONE"
               lat := loc.lat
               lon := loc.lon
               address := loc.address }

/-- The bounding box of the antimeridian-wraparound example of the spec:
west = 179.0, east = -130.0, north = 72, south = 51 (Alaska). -/
def wrapAroundBox : Bounds := { north := 72, south := 51, east := -130, west := 179 }

/-- The DC bounding box hard-coded in `validate-state-boundaries.js`
(lines 30-36). -/
def dcBounds : Bounds :=
  { north := 38.995548, south := 38.791645, east := -76.909393, west := -77.119759 }

/-! ## `validate-cities.js` -/

/-- `BAD_PATTERNS[0]`: `/\(empty\)/i`. -/
def patEmptyMarker (s : String) : Bool := ciContains s.data "(empty)".data

/-- `BAD_PATTERNS[1]`: `/^\d/`. -/
def patStartsDigit (s : String) : Bool :=
  match s.data with
  | [] => false
  | c :: _ => isDigitChar c

/-- `BAD_PATTERNS[2]`: `/^[A-Z]{2,3}$/`. -/
def patStateAbbrevOnly (s : String) : Bool :=
  (s.data.length = 2 || s.data.length = 3) && s.data.all isAsciiUpper

/-- `BAD_PATTERNS[8]`: `/\s+-\s*$/`. -/
def patEndsDash (s : String) : Bool :=
  let r := dropTrailingWs s.data
  match r.reverse with
  | '-' :: c :: _ => jsIsWs c
  | _ => false

/-- `BAD_PATTERNS[9]`: `/^\w+\s+\w+\s+\w+\s+\w+/` (4+ space-separated words).
`\w` and `\s` are disjoint classes, so the greedy parse is deterministic. -/
def patFourWords (s : String) : Bool :=
  step3 s.data
where
  wordRun (l : List Char) : Option (List Char) :=
    let run := l.takeWhile isWordChar
    if run.isEmpty then none else some (l.dropWhile isWordChar)
  wsRun (l : List Char) : Option (List Char) :=
    let run := l.takeWhile jsIsWs
    if run.isEmpty then none else some (l.dropWhile jsIsWs)
  step3 (l : List Char) : Bool :=
    match wordRun l with
    | none => false
    | some r1 =>
      match wsRun r1 with
      | none => false
      | some r2 =>
        match wordRun r2 with
        | none => false
        | some r3 =>
          match wsRun r3 with
          | none => false
          | some r4 =>
            match wordRun r4 with
            | none => false
            | some r5 =>
              match wsRun r5 with
              | none => false
              | some r6 => (wordRun r6).isSome

/-- The `BAD_PATTERNS` array of `validate-cities.js` (lines 111-123), as a
single predicate: true iff some pattern matches. -/
def anyBadPattern (city : String) : Bool :=
  patEmptyMarker city || patStartsDigit city || patStateAbbrevOnly city ||
  ciEndsWith city "Twp" || csEndsWith city "Bea" || ciEndsWith city "Hgts" ||
  ciEndsWith city "Ctr" || ciEndsWith city "Vlg" || patEndsDash city ||
  patFourWords city

/-- `CANADIAN_PROVINCES` (line 126). -/
def CANADIAN_PROVINCES : List String :=
  ["AB", "BC", "MB", "NB", "NL", "NS", "NT", "NU", "ON", "PE", "QC", "SK", "YT"]

/-- `city.replace(/\s+(Township|Twp|Heights|Hgts|Center|Ctr|Village|Vlg)$/i, '')`
(line 143): the first alternative that matches as a suffix preceded by
whitespace is removed together with the whitespace run before it (`replace`
only; the caller applies `.trim()` afterwards, see `isSuspicious`). -/
def stripCommonSuffix (city : String) : String :=
  go ["Township", "Twp", "Heights", "Hgts", "Center", "Ctr", "Village", "Vlg"]
where
  go : List String → String
  | [] => city
  | alt :: rest =>
    let cs := city.data
    let n := cs.length
    let k := alt.data.length
    if ciEndsWith city alt &&
        (match cs.get? (n - k - 1) with
         | some c => jsIsWs c
         | none => false) then
      ⟨cs.take (n - k)⟩
    else go rest

/-- `isSuspicious(city, state)` from `validate-cities.js` (lines 129-157).
The valid-city set (built at load time from the ZIP database, the Census
files and `EXTRA_VALID_CITIES`) is passed as the list of its keys. -/
def isSuspicious (validCities : List String) (city state : String) : Bool :=
  if city = "" || jsTrim city = "" then true
  else if CANADIAN_PROVINCES.contains state then false
  else
    let key := jsToLower city ++ "|" ++ state
    if validCities.contains key then false
    else
      let simplified := jsTrim (stripCommonSuffix city)
      let simplifiedKey := jsToLower simplified ++ "|" ++ state
      if validCities.contains simplifiedKey then false
      else if anyBadPattern city then true
      else true

/-! ## Embedded `extract-osm-brand.js` (inside `generate-zip.js`) -/

/-- An OSM element as returned by Overpass: node or way/relation with an
optional center, plus its tag mapping (tag values are strings). -/
structure OsmElement where
  typ : String
  lat : Option ℚ
  lon : Option ℚ
  center : Option (ℚ × ℚ)
  tags : List (String × String)
deriving Repr, DecidableEq

/-- Association-list lookup modelling JS property access `tags[k]`;
an absent property is the empty string after `|| ''`. -/
def tagOr (tags : List (String × String)) (k : String) : String :=
  match tags.find? (fun p => p.1 = k) with
  | some p => p.2
  | none => ""

/-- `a || b` on JS strings: the first operand unless it is falsy (empty). -/
def strOr (a b : String) : String := if a = "" then b else a

/-- `US_STATES` of the OSM extraction script (lines 71-78). -/
def US_STATES : List String :=
  ["AL", "AK", "AZ", "AR", "CA", "CO", "CT", "DE", "FL", "GA",
   "HI", "ID", "IL", "IN", "IA", "KS", "KY", "LA", "ME", "MD",
   "MA", "MI", "MN", "MS", "MO", "MT", "NE", "NV", "NH", "NJ",
   "NM", "NY", "NC", "ND", "OH", "OK", "OR", "PA", "RI", "SC",
   "SD", "TN", "TX", "UT", "VT", "VA", "WA", "WV", "WI", "WY",
   "DC", "PR", "VI", "GU"]

/-- `getState(tags)` (lines 119-123). -/
def osmGetState (tags : List (String × String)) : String :=
  jsToUpper (strOr (tagOr tags "addr:state") (tagOr tags "state"))

/-- `getCity(tags)` (lines 125-127). -/
def osmGetCity (tags : List (String × String)) : String :=
  strOr (tagOr tags "addr:city") (tagOr tags "city")

/-- `getAddress(tags)` (lines 129-137). -/
def osmGetAddress (tags : List (String × String)) : String :=
  if tagOr tags "addr:street_address" ≠ "" then tagOr tags "addr:street_address"
  else if tagOr tags "addr:housenumber" ≠ "" && tagOr tags "addr:street" ≠ "" then
    tagOr tags "addr:housenumber" ++ " " ++ tagOr tags "addr:street"
  else if tagOr tags "addr:street" ≠ "" then tagOr tags "addr:street"
  else if tagOr tags "addr:full" ≠ "" then tagOr tags "addr:full"
  else ""

/-- `getName(tags)` (lines 139-141). -/
def osmGetName (tags : List (String × String)) : String :=
  strOr (tagOr tags "name") (tagOr tags "branch")

/-- `isUSOrCanada(tags, lat, lon)` (lines 143-166). -/
def isUSOrCanada (tags : List (String × String)) (lat lon : ℚ) : Bool :=
  let state := osmGetState tags
  let country := jsToUpper (tagOr tags "addr:country")
  if country = "US" || country = "USA" || country = "CA" || country = "CAN" then
    true
  else if US_STATES.contains state || CANADIAN_PROVINCES.contains state then
    true
  else if lat ≠ 0 && lon ≠ 0 then
    lat ≥ 24 && lat ≤ 72 && lon ≥ -170 && lon ≤ -50
  else false

/-- The coordinates the main loop selects for an element (lines 193-201):
`element.lat/lon` for a node, else `element.center`. -/
def osmCoords (e : OsmElement) : Option (ℚ × ℚ) :=
  if e.typ = "node" then
    match e.lat, e.lon with
    | some la, some lo => some (la, lo)
    | _, _ => none
  else e.center

/-- The dedup key `` `${lat.toFixed(4)},${lon.toFixed(4)}` `` (line 209),
modelled as the pair of rendered `toFixed(4)` strings. -/
def osmCoordKey (lat lon : ℚ) : (Bool × ℤ) × (Bool × ℤ) :=
  (toFixedKey 4 lat, toFixedKey 4 lon)

/-- The location pushed for a surviving element (lines 218-225). -/
def mkOsmLocation (useLocationName : Bool) (tags : List (String × String))
    (lat lon : ℚ) : Location :=
  { lat := toFixedVal 5 lat
    lon := toFixedVal 5 lon
    city := osmGetCity tags
    state := osmGetState tags
    address := osmGetAddress tags
    name := if useLocationName then osmGetName tags else "" }

/-- The per-element guards of the main loop (lines 193-206): coordinates
must be selected, truthy (`if (!lat || !lon) continue`), and pass
`isUSOrCanada`; returns the surviving coordinates. -/
def osmGuard (e : OsmElement) : Option (ℚ × ℚ) :=
  match osmCoords e with
  | none => none
  | some (lat, lon) =>
    if lat = 0 || lon = 0 then none
    else if !isUSOrCanada e.tags lat lon then none
    else some (lat, lon)

/-- The main loop of the OSM extraction script (lines 187-226): apply the
per-element guards, deduplicate by the 4-decimal coordinate key (`seen` set,
first record wins), and build the location list. -/
def osmLoop (useLocationName : Bool) :
    List OsmElement → List ((Bool × ℤ) × (Bool × ℤ)) → List Location
  | [], _ => []
  | e :: rest, seen =>
    match osmGuard e with
    | none => osmLoop useLocationName rest seen
    | some (lat, lon) =>
      let key := osmCoordKey lat lon
      if seen.contains key then osmLoop useLocationName rest seen
      else mkOsmLocation useLocationName e.tags lat lon ::
        osmLoop useLocationName rest (key :: seen)

/-- `locations` as assembled by the OSM extraction script (before the final
sort by state and city, which only permutes the list). -/
def osmLocations (useLocationName : Bool) (elements : List OsmElement) :
    List Location :=
  osmLoop useLocationName elements []

/-- The elements that survive the per-element guards of the loop, paired with
their dedup key and location (the stream the dedup step consumes). -/
def osmStream (useLocationName : Bool) (elements : List OsmElement) :
    List ((((Bool × ℤ) × (Bool × ℤ))) × Location) :=
  elements.filterMap fun e =>
    (osmGuard e).map fun c =>
      (osmCoordKey c.1 c.2, mkOsmLocation useLocationName e.tags c.1 c.2)

/-- Keep the first entry for every key, dropping later entries with the same
key: the specification of coordinate-key deduplication. -/
def keepFirstByKey {κ α : Type} [DecidableEq κ] : List (κ × α) → List (κ × α)
  | [] => []
  | (k, a) :: t => (k, a) :: keepFirstByKey (t.filter (fun p => p.1 ≠ k))
termination_by l => l.length
decreasing_by
  simp only [List.length_cons]
  exact Nat.lt_succ_of_le (List.length_filter_le _ _)

/-- First element of the C4 counterexample: latitude 40.00004999 rounds to
the 4-decimal key 40.0000 but to the 5-decimal stored value 40.00005. -/
def osmDupA : OsmElement :=
  { typ := "node", lat := some (40.00004999 : ℚ), lon := some (-74.5 : ℚ),
    center := none, tags := [("addr:state", "NJ")] }

/-- Second element of the C4 counterexample: latitude 40.00005001 rounds to
the distinct 4-decimal key 40.0001 but to the same stored value 40.00005. -/
def osmDupB : OsmElement :=
  { typ := "node", lat := some (40.00005001 : ℚ), lon := some (-74.5 : ℚ),
    center := none, tags := [("addr:state", "NJ")] }



/-! ## `extract-brand.js`: City Cleaner -/

/-- `REPEATED_WORD_CITIES` (extract-brand.js lines 256-259). -/
def REPEATED_WORD_CITIES : List String :=
  ["Paw Paw", "Walla Walla", "Bora Bora", "Ding Dong", "Wagga Wagga",
   "Baden Baden", "Bala Bala", "Sing Sing", "Coeur d\x27Alene"]

/-- `SUMMIT_CITIES` (lines 262-265). -/
def SUMMIT_CITIES : List String :=
  ["Lee\x27s Summit", "Lees Summit", "Blue Summit", "Park Summit",
   "Oak Summit", "Clarks Summit", "Holts Summit", "Grants Summit"]

/-- `PROTECTED_CITIES` (lines 268-349), in source order with its duplicate
entries preserved. -/
def PROTECTED_CITIES : List String :=
  ["Fort Wayne", "Lake Wayne", "Port Wayne", "West Palm Beach",
   "North Palm Beach", "Palm Beach", "Long Beach", "Virginia Beach",
   "Myrtle Beach", "Delray Beach", "Pompano Beach", "Deerfield Beach",
   "Boynton Beach", "Huntington Beach", "Newport Beach", "Laguna Beach",
   "Hermosa Beach", "Redondo Beach", "Manhattan Beach", "Seal Beach",
   "Solana Beach", "Imperial Beach", "Pismo Beach", "Salt Lake", "Lake",
   "Crystal Lake", "Spring Lake", "Clear Lake", "Round Lake", "Silver Lake",
   "Long Lake", "Twin Lake", "White Lake", "Green Lake", "Big Lake",
   "Grass Lake", "Bear Lake", "Storm Lake", "Spirit Lake", "Indian Lake",
   "Bass Lake", "Eagle Lake", "Elk Lake", "Deer Lake", "Fox Lake",
   "Torch Lake", "Gull Lake", "Burt Lake", "Higgins Lake", "Houghton Lake",
   "Portage Lake", "Walled Lake", "Orchard Lake", "Commerce Lake",
   "Union Lake", "Williams Lake", "Cadillac Lake", "Balsam Lake", "Rice Lake",
   "Turtle Lake", "Shell Lake", "Cameron Lake", "Cass Lake", "Horn Lake",
   "Devils Lake", "Elbow Lake", "Wonder Lake", "Third Lake", "Minnesota Lake",
   "Ottawa Lake", "Pleasant Lake", "Hubbard Lake", "Howard Lake",
   "Canyon Lake", "Manitou Lake", "Diamond Lake", "Moose Lake", "Otter Lake",
   "Tupper Lake", "Saranac Lake", "Sylvan Lake", "Island Lake", "Croton Lake",
   "Swan Lake", "Pell Lake", "Lady Lake", "Bonney Lake", "Moses Lake",
   "Prior Lake", "Forest Lake", "White Lake", "Rice Lake", "Spirit Lake",
   "Clear Lake", "Walled Lake", "Canyon Lake", "Devils Lake", "Mohegan Lake",
   "Carter Lake", "Mount Marion", "Lake Marion", "Mount Washington",
   "Port Washington", "Lake Washington", "Mount Jefferson", "Port Jefferson",
   "Lake Jefferson", "Fort Madison", "Lake Madison", "Port Madison",
   "Port Jackson", "Lake Jackson", "Fort Jackson", "Mount Hamilton",
   "Lake Hamilton", "Port Hamilton", "Mount Montgomery", "Lake Houston",
   "Port Houston", "North Charleston", "West Charleston", "Mount Pleasant",
   "Mount Vernon", "Mount Prospect", "Mount Laurel", "Mount Holly",
   "Mount Morris", "Mount Clemens", "Mount Olive", "Mount Airy",
   "Mount Carmel", "Mount Dora", "Mount Juliet", "Mount Kisco",
   "Mount Lebanon", "Mount Rainier", "West Sacramento", "South San Francisco",
   "East Palo Alto", "North Hollywood", "Port St. Lucie", "Port Orange",
   "Port Arthur", "Port Huron", "Port Charlotte", "Fort Worth",
   "Fort Lauderdale", "Fort Myers", "Fort Collins", "Fort Smith",
   "Fort Pierce", "Fort Lee", "Fort Knox", "Fort Dodge", "Fort Walton Beach",
   "Fort Bragg", "Fort Morgan", "Fort Payne", "Fort Valley",
   "Fort Oglethorpe", "Fort Atkinson", "Fort Mill", "Fort Scott",
   "Fort Thomas", "Fort Mitchell", "Fort Meade", "Fort White", "Fort McCoy",
   "North Fort Myers", "West Chester", "East Orange", "North Bergen",
   "South Bend", "Grand Rapids", "West Orange", "East Dallas", "North Dallas",
   "South Dallas", "West Jefferson", "East Jefferson", "North Jefferson",
   "West Union", "East Union", "North Union", "South Union", "West Salem",
   "East Salem", "North Salem", "South Salem", "West Monroe", "East Monroe",
   "North Monroe", "South Monroe", "West Columbia", "East Columbia",
   "North Columbia", "South Columbia", "West Haven", "East Haven",
   "North Haven", "South Haven", "West Point", "East Point", "North Point",
   "South Point", "West Liberty", "East Liberty", "North Liberty",
   "South Liberty", "Camp Douglas", "Fort Douglas", "Castle Douglas",
   "Fork Union", "Port Union", "Mount Union", "Canyon Country", "Canyon City",
   "San Diego", "San Francisco", "San Jose", "San Antonio", "Los Angeles",
   "Las Vegas", "El Paso", "St. Louis", "St. Paul", "St. Petersburg",
   "New York", "New Orleans", "New Haven", "New Bedford", "Royal Oak",
   "Royal Palm Beach", "Lake Worth", "Lake Charles", "Lake City",
   "Lake Placid", "Lake Forest", "Lake Oswego", "Lake Geneva",
   "Lake Havasu City", "Cedar Rapids", "Grand Prairie", "Oak Park",
   "Oak Lawn", "Oak Ridge", "Coral Springs", "Palm Springs", "Palm Coast",
   "Palm Bay", "Palm Harbor", "Belle Vernon", "Mount Vernon",
   "East Cleveland", "West Cleveland", "South Charleston", "North Charleston",
   "East Chicago", "West Chicago", "Corte Madera", "Liberty Lake",
   "Budd Lake", "June Lake", "Whitmore Lake", "Battle Lake", "Long Lake",
   "Island Lake", "Third Lake", "Wonder Lake", "Paddock Lake", "Round Lake",
   "Mirror Lake", "Sturgeon Lake", "Green Lake"]

/-- `COUNTY_NAMES` (lines 352-399), in source order (compound names first). -/
def COUNTY_NAMES : List String :=
  ["Salt Lake", "New York", "New Haven", "Fond du Lac", "Eau Claire",
   "District of Columbia", "Prince George", "Anne Arundel", "Prince William",
   "St. Louis", "St. Clair", "Palm Beach", "Miami-Dade", "Los Angeles",
   "San Diego", "San Francisco", "San Bernardino", "San Mateo", "Santa Clara",
   "Contra Costa", "El Paso", "Broward", "Harris", "Bexar", "Dallas",
   "Tarrant", "Travis", "Maricopa", "Pima", "Clark", "Washoe", "King",
   "Pierce", "Snohomish", "Multnomah", "Clackamas", "Sacramento", "Orange",
   "Riverside", "Alameda", "Fresno", "Kern", "Ventura", "Cook", "DuPage",
   "Lake", "Will", "Kane", "Wayne", "Oakland", "Macomb", "Cuyahoga",
   "Franklin", "Hamilton", "Montgomery", "Summit", "Lucas", "Allegheny",
   "Philadelphia", "Delaware", "Bucks", "Chester", "Lancaster", "Suffolk",
   "Nassau", "Westchester", "Erie", "Monroe", "Onondaga", "Queens",
   "Middlesex", "Essex", "Bergen", "Hudson", "Union", "Passaic", "Morris",
   "Monmouth", "Ocean", "Camden", "Burlington", "Gloucester", "Mercer",
   "Fairfax", "Loudoun", "Arlington", "Henrico", "Chesterfield",
   "Hillsborough", "Pinellas", "Duval", "Seminole", "Volusia", "Lee", "Polk",
   "Brevard", "Pasco", "Sarasota", "Manatee", "Collier", "Marion", "Fulton",
   "DeKalb", "Gwinnett", "Cobb", "Clayton", "Cherokee", "Forsyth", "Henry",
   "Douglas", "Rockdale", "Newton", "Paulding", "Fayette", "Carroll",
   "Mecklenburg", "Wake", "Guilford", "Cumberland", "Durham", "Buncombe",
   "Gaston", "Cabarrus", "Iredell", "Catawba", "Rowan", "Davidson",
   "Greenville", "Richland", "Charleston", "Horry", "Spartanburg",
   "Lexington", "York", "Berkeley", "Dorchester", "Anderson", "Aiken",
   "Beaufort", "Shelby", "Knox", "Rutherford", "Williamson", "Sumner",
   "Wilson", "Blount", "Sullivan", "Washington", "Sevier", "Jefferson",
   "Madison", "Mobile", "Baldwin", "Tuscaloosa", "Morgan", "Etowah",
   "Calhoun", "Houston", "Limestone", "Collin", "Denton", "Tulsa", "Denver",
   "Milwaukee", "Spokane", "Salt", "Midland", "Lubbock", "Pueblo", "Yuma",
   "Florence", "Hartford", "Madera", "Victoria", "Kenosha", "Waukesha",
   "Yakima", "Monterey", "Jackson", "Autauga", "Barbour", "Bibb", "Bullock",
   "Chambers", "Cherokee", "Chilton", "Choctaw", "Clarke", "Clay", "Cleburne",
   "Coffee", "Colbert", "Conecuh", "Coosa", "Covington", "Crenshaw",
   "Cullman", "Dale", "Dallas", "Elmore", "Escambia", "Geneva", "Greene",
   "Hale", "Lamar", "Lauderdale", "Lawrence", "Lowndes", "Macon", "Marengo",
   "Marshall", "Perry", "Pickens", "Pike", "Randolph", "Russell", "Talladega",
   "Tallapoosa", "Walker", "Wilcox", "Winston", "Apache", "Cochise",
   "Coconino", "Gila", "Graham", "Greenlee", "Mohave", "Navajo", "Pinal",
   "Yavapai", "Benton", "Boone", "Craighead", "Crawford", "Crittenden",
   "Faulkner", "Garland", "Lonoke", "Miller", "Poinsett", "Pope", "Pulaski",
   "Sebastian", "White", "Butte", "Contra", "Glenn", "Humboldt", "Imperial",
   "Inyo", "Lassen", "Marin", "Mendocino", "Merced", "Modoc", "Napa",
   "Nevada", "Placer", "Plumas", "Shasta", "Siskiyou", "Solano", "Sonoma",
   "Stanislaus", "Sutter", "Tehama", "Trinity", "Tulare", "Tuolumne"]

/-- `INVALID_SINGLE_WORDS` inside `cleanCity` (lines 435-446). -/
def INVALID_SINGLE_WORDS : List String :=
  ["mount", "fort", "port", "west", "east", "north", "south", "lake", "big",
   "bear", "deer", "elk", "fox", "eagle", "wolf", "bass", "grass", "pine",
   "oak", "cedar", "maple", "spring", "crystal", "silver", "golden", "royal",
   "grand", "little", "new", "old", "upper", "lower", "middle", "center",
   "saint", "san", "santa", "las", "los", "el", "la", "del", "de", "lees",
   "lee\x27s", "horn", "moses", "bonney", "clarks", "holts", "corte", "prior",
   "forest", "rice", "liberty", "lady", "walla", "devils", "devil\x27s",
   "budd", "mohegan", "island", "third", "wonder", "mirror", "battle",
   "canal", "mentor", "young", "sour", "white", "clear", "storm", "spirit",
   "carter"]

/-- Match a county name, interpolated into `new RegExp` (line 451), against
a same-length text fragment: a `.` in the county name is a regex wildcard
matching any character; everything else compares case-insensitively. -/
def patMatchCi : List Char → List Char → Bool
  | [], [] => true
  | [], _ :: _ => false
  | _ :: _, [] => false
  | p :: ps, c :: cs => (p = '.' || ciEq p c) && patMatchCi ps cs

/-- `` new RegExp(`\\s+${county}$`, 'i').test(city) `` (lines 451-452): the
county pattern must cover the final characters of the string, preceded by at
least one whitespace character. -/
def countySuffixMatches (county city : String) : Bool :=
  let cs := city.data
  let n := cs.length
  let k := county.data.length
  decide (n > k) && patMatchCi county.data (cs.drop (n - k)) &&
    (match cs.get? (n - k - 1) with
     | some c => jsIsWs c
     | none => false)

/-- `city.replace(regex, '').trim()` (line 453): the regex consumes the
whole whitespace run before the county suffix, so the result is the prefix
before the suffix, trimmed. -/
def stripCountyResult (county city : String) : String :=
  jsTrim ⟨city.data.take (city.data.length - county.data.length)⟩

/-- The county-stripping loop of `cleanCity` (lines 448-462): the first
county whose anchored regex tests true ends the loop (`break`); the strip is
kept only if the remainder is at least 4 characters and not an invalid
single word. -/
def stripTrailingCounty (city : String) : List String → String
  | [] => city
  | county :: rest =>
    if countySuffixMatches county city then
      let stripped := stripCountyResult county city
      if stripped.length ≥ 4 &&
          !(INVALID_SINGLE_WORDS.contains (jsToLower stripped)) then stripped
      else city
    else stripTrailingCounty city rest

/-- The duplicated-name collapse of `cleanCity` (lines 407-424):
`"Denver Denver" -> "Denver"`, protecting `REPEATED_WORD_CITIES`. -/
def collapseDuplicatedName (city : String) : String :=
  let words := jsSplit city ' '
  if words.length ≥ 2 then
    let half := words.length / 2
    let firstHalf := String.intercalate " " (words.take half)
    let secondHalf := String.intercalate " " (words.drop half)
    if jsToLower firstHalf = jsToLower secondHalf then
      if REPEATED_WORD_CITIES.any (fun c => jsToLower c = jsToLower city) then
        city
      else firstHalf
    else city
  else city

/-- Drop five decimal digits from the front of a reversed character list. -/
def rdropFiveDigits : List Char → Option (List Char)
  | a :: b :: c :: d :: e :: rest =>
    if isDigitChar a && isDigitChar b && isDigitChar c && isDigitChar d &&
        isDigitChar e then some rest
    else none
  | _ => none

/-- `city.replace(/\s+[A-Z]{2}\s*\d{5}(-\d{4})?$/, '')` (line 465), analysed
from the right end of the string. -/
def stripStateZipSuffix (city : String) : String :=
  let r := city.data.reverse
  let afterZip :=
    match
      (match r with
       | a :: b :: c :: d :: dash :: rest =>
         if isDigitChar a && isDigitChar b && isDigitChar c && isDigitChar d &&
             dash = '-' then rdropFiveDigits rest
         else none
       | _ => none) with
    | some r2 => some r2
    | none => rdropFiveDigits r
  match afterZip with
  | none => city
  | some r2 =>
    let r3 := r2.dropWhile jsIsWs
    match r3 with
    | u2 :: u1 :: rest2 =>
      if isAsciiUpper u1 && isAsciiUpper u2 then
        match rest2 with
        | w :: _ =>
          if jsIsWs w then ⟨(rest2.dropWhile jsIsWs).reverse⟩ else city
        | [] => city
      else city
    | _ => city

/-- `city.replace(/\s+[A-Z]{2}$/, '')` (line 468). -/
def stripStateSuffix (city : String) : String :=
  match city.data.reverse with
  | u2 :: u1 :: rest =>
    if isAsciiUpper u1 && isAsciiUpper u2 then
      match rest with
      | w :: _ => if jsIsWs w then ⟨(rest.dropWhile jsIsWs).reverse⟩ else city
      | [] => city
    else city
  | _ => city

/-- `city.replace(/\s+(Mass|USA|US)$/i, '')` (line 471). -/
def stripNoiseSuffix (city : String) : List String → String
  | [] => city
  | alt :: rest =>
    let cs := city.data
    let k := alt.data.length
    if ciEndsWith city alt &&
        (match cs.get? (cs.length - k - 1) with
         | some c => jsIsWs c
         | none => false) then
      ⟨dropTrailingWs (cs.take (cs.length - k))⟩
    else stripNoiseSuffix city rest

/-- `cleanCity(city)` from `extract-brand.js` (lines 404-477). -/
def cleanCity (city : String) : String :=
  if city = "" then ""
  else
    let city1 := collapseDuplicatedName city
    let isProt :=
      PROTECTED_CITIES.any (fun p => jsToLower p = jsToLower city1) ||
      SUMMIT_CITIES.any (fun p => jsToLower p = jsToLower city1)
    let city2 := if isProt then city1 else stripTrailingCounty city1 COUNTY_NAMES
    let city3 := stripStateZipSuffix city2
    let city4 := stripStateSuffix city3
    let city5 := stripNoiseSuffix city4 ["Mass", "USA", "US"]
    jsTrim city5

/-! ## `extract-brand.js`: City Normalizer -/

/-- Head-is-whitespace test for the `\s+` parts of anchored regexes. -/
def headIsWs : List Char → Bool
  | c :: _ => jsIsWs c
  | [] => false

/-- `city.toLowerCase().replace(/\b\w/g, c => c.toUpperCase())` applied when
the string is entirely upper- or lower-case and longer than 2 characters
(normalizeCity lines 487-489).  The scanner uppercases every word character
at a word boundary; `\b`/`\w` are ASCII-only. -/
def capWordBounds (prevWord : Bool) : List Char → List Char
  | [] => []
  | c :: t =>
    (if !prevWord && isWordChar c then jsToUpperChar c else c) ::
      capWordBounds (isWordChar c) t

/-- The uniform-case title-casing step (lines 487-489). -/
def titleCaseIfUniform (city : String) : String :=
  if (city = jsToUpper city || city = jsToLower city) && city.length > 2 then
    ⟨capWordBounds false (jsToLower city).data⟩
  else city

/-- `city.replace(/\b([a-z])(\w*)/g, ...)` (line 493): uppercase every
ASCII-lowercase letter standing at a word boundary (the `(\w*)` tail of each
match is copied unchanged, and no new match can begin inside it since there
is no boundary there). -/
def capLowerWordStarts (prevWord : Bool) : List Char → List Char
  | [] => []
  | c :: t =>
    (if !prevWord && isAsciiLower c then jsToUpperChar c else c) ::
      capLowerWordStarts (isWordChar c) t

/-- `city.replace(/\bMc([a-z])/g, (m, l) => 'Mc' + l.toUpperCase())`
(line 496), as a left-to-right consuming scanner.  The scanners are written
with an explicit fuel (initialized to the list length; every step consumes
at least one character) so that they evaluate by kernel reduction. -/
def mcFixGo (fuel : ℕ) (prevWord : Bool) (l : List Char) : List Char :=
  match fuel with
  | 0 => l
  | fuel + 1 =>
    match l with
    | 'M' :: 'c' :: c :: t =>
      if !prevWord && isAsciiLower c then
        'M' :: 'c' :: jsToUpperChar c :: mcFixGo fuel true t
      else 'M' :: mcFixGo fuel true ('c' :: c :: t)
    | c :: t => c :: mcFixGo fuel (isWordChar c) t
    | [] => []

def mcFix (prevWord : Bool) (l : List Char) : List Char :=
  mcFixGo l.length prevWord l

/-- `city.replace(/\bSaint\s+/gi, 'St. ')` (line 508): `Saint` at a word
boundary, case-insensitively, followed by a whitespace run, becomes
`St. `. -/
def saintFixGo (fuel : ℕ) (prevWord : Bool) (l : List Char) : List Char :=
  match fuel with
  | 0 => l
  | fuel + 1 =>
    match l with
    | s :: a :: i :: n :: t :: rest =>
      if !prevWord && ciEq s 'S' && ciEq a 'a' && ciEq i 'i' && ciEq n 'n' &&
          ciEq t 't' && headIsWs rest then
        'S' :: 't' :: '.' :: ' ' :: saintFixGo fuel false (rest.dropWhile jsIsWs)
      else s :: saintFixGo fuel (isWordChar s) (a :: i :: n :: t :: rest)
    | c :: cs => c :: saintFixGo fuel (isWordChar c) cs
    | [] => []

def saintFix (prevWord : Bool) (l : List Char) : List Char :=
  saintFixGo l.length prevWord l

/-- `city.replace(/\bSt\s+(?=[A-Z])/g, 'St. ')` (line 511): case-sensitive
`St` at a word boundary followed by whitespace and an uppercase lookahead
(not consumed). -/
def stFixGo (fuel : ℕ) (prevWord : Bool) (l : List Char) : List Char :=
  match fuel with
  | 0 => l
  | fuel + 1 =>
    match l with
    | 'S' :: 't' :: rest =>
      if !prevWord && headIsWs rest &&
          (match rest.dropWhile jsIsWs with
           | c :: _ => isAsciiUpper c
           | [] => false) then
        'S' :: 't' :: '.' :: ' ' :: stFixGo fuel false (rest.dropWhile jsIsWs)
      else 'S' :: stFixGo fuel true ('t' :: rest)
    | c :: cs => c :: stFixGo fuel (isWordChar c) cs
    | [] => []

def stFix (prevWord : Bool) (l : List Char) : List Char :=
  stFixGo l.length prevWord l

/-- `city.replace(/(.)\bDu\b/gi, (m, b) => b + 'du')` and the analogous
`Of` rule (lines 515-516): a two-letter word (given here in lowercase as
`c1 c2`) preceded by any character and enclosed in word boundaries is
lowercased; the preceding character is kept.  The strings contain no
newlines, so `(.)` matches any preceding character. -/
def midWordLowerGo (fuel : ℕ) (c1 c2 : Char) (l : List Char) : List Char :=
  match fuel with
  | 0 => l
  | fuel + 1 =>
    match l with
    | a :: b :: c :: rest =>
      if !isWordChar a && ciEq b c1 && ciEq c c2 &&
          (match rest with
           | d :: _ => !isWordChar d
           | [] => true) then
        a :: c1 :: c2 :: midWordLowerGo fuel c1 c2 rest
      else a :: midWordLowerGo fuel c1 c2 (b :: c :: rest)
    | l => l

def midWordLower (c1 c2 : Char) (l : List Char) : List Char :=
  midWordLowerGo l.length c1 c2 l

/-- Left-to-right, non-overlapping global replacement of a non-empty
literal pattern (head `p`, tail `ps`) by `rep`: JS
`String.prototype.replace(/pat/g, rep)` for literal patterns. -/
def replaceAllAuxGo (fuel : ℕ) (p : Char) (ps rep : List Char)
    (l : List Char) : List Char :=
  match fuel with
  | 0 => l
  | fuel + 1 =>
    match l with
    | [] => []
    | c :: t =>
      if c = p && List.isPrefixOf ps t then
        rep ++ replaceAllAuxGo fuel p ps rep (t.drop ps.length)
      else c :: replaceAllAuxGo fuel p ps rep t

def replaceAllAux (p : Char) (ps rep : List Char) (l : List Char) :
    List Char :=
  replaceAllAuxGo l.length p ps rep l

/-- Global literal replacement on strings (pattern must be non-empty, as
all patterns in the source are). -/
def replaceAll (s pat rep : String) : String :=
  match pat.data with
  | [] => s
  | p :: ps => ⟨replaceAllAux p ps rep.data s.data⟩

/-- The city-alias table: state → raw city → canonical city or `null`
(loaded from `city-name-aliases.json`, external reference data). -/
def AliasTable : Type := List (String × List (String × Option String))

/-- `applyCityAlias(city, state)` (lines 81-90): `null` means the city is
invalid and becomes the empty string; a truthy alias replaces the city; a
missing state table, missing entry, or falsy (empty-string) alias leaves
the city unchanged. -/
def applyCityAlias (aliases : AliasTable) (city state : String) : String :=
  if city = "" || state = "" then city
  else
    match List.find? (fun p => p.1 = state) aliases with
    | none => city
    | some (_, stateAliases) =>
      match List.find? (fun p => p.1 = city) stateAliases with
      | none => city
      | some (_, none) => ""
      | some (_, some a) => if a = "" then city else a

/-- The raw table entry `cityAliases[state][city]`: `none` when either level
of the lookup misses, `some none` when the entry is the JSON `null`,
`some (some a)` when the entry is the string `a`. -/
def aliasEntry (aliases : AliasTable) (state city : String) :
    Option (Option String) :=
  match List.find? (fun p => p.1 = state) aliases with
  | none => none
  | some (_, stateAliases) =>
    match List.find? (fun p => p.1 = city) stateAliases with
    | none => none
    | some (_, v) => some v

/-- The stages of `normalizeCity` that run before the alias lookup
(lines 487-501): uniform-case title casing, capitalization of lowercase
word starts, the `Mc` fix, and the `La`/`Le`/`De` rules — the latter three
replaces (lines 499-501) rebuild the match verbatim (`'La' + letter` where
`letter` is the captured character) and are therefore the identity. -/
def preAliasStage (city : String) : String :=
  ⟨mcFix false (capLowerWordStarts false (titleCaseIfUniform city).data)⟩
/-- The `state === 'NY'` override block(s) of `normalizeCity`,
in source order; `some` is an early return, `none` falls through. -/
def overridesNY (city : String) : Option String :=
  if (city = "New York" || city = "Newyork") then some "New York City"
  else if city = "Bronx" then some "The Bronx"
  else if city = "Averne" then some "Arverne"
  else if city = "Brumswick" then some "Brunswick"
  else if (city = "Castleton On" || city = "Castleton on") then some "Castleton-on-Hudson"
  else if (city = "Croton" || city = "Croton On" || city = "Croton on")
      then some "Croton-on-Hudson"
  else if (city = "E Meadow" || city = "E. Meadow") then some "East Meadow"
  else if (city = "E Northport" || city = "E. Northport") then some "East Northport"
  else if city = "Hasting" then some "Hastings-on-Hudson"
  else if (city = "Port Jefferson Stati" || city = "Port Jefferson Stn")
      then some "Port Jefferson Station"
  else if (city = "Rockville Ctr" || city = "Rockville Ctr.") then some "Rockville Centre"
  else if (city = "S Farmingdale" || city = "S. Farmingdale") then some "South Farmingdale"
  else if (city = "S Ozone Park" || city = "S. Ozone Park") then some "South Ozone Park"
  else if (city = "S Richmond Hill" || city = "S. Richmond Hill") then some "South Richmond Hill"
  else if (city = "Saratoga Spgs" || city = "Saratoga Spgs.") then some "Saratoga Springs"
  else if city = "Wappinger Falls" then some "Wappingers Falls"
  else if city = "Wyndanch" then some "Wyandanch"
  else if (city = "NYC" || city = "Nyc") then some "New York"
  else none

/-- The `state === 'AZ'` override block(s) of `normalizeCity`,
in source order; `some` is an early return, `none` falls through. -/
def overridesAZ (city : String) : Option String :=
  if city = "Ft. Huachuca" then some "Fort Huachuca"
  else if city = "Greenvalley" then some "Green Valley"
  else if city = "Huachuca City," then some "Huachuca City"
  else if city = "Lake Havasu Cty" then some "Lake Havasu City"
  else if city = "Pheonix" then some "Phoenix"
  else if city = "Prescott," then some "Prescott"
  else if city = "Queens Creek" then some "Queen Creek"
  else if city = "St. David" then some "Saint David"
  else if city = "St. Johns" then some "Saint Johns"
  else if city = "St. Michaels" then some "Saint Michaels"
  else none

/-- The `state === 'CA'` override block(s) of `normalizeCity`,
in source order; `some` is an early return, `none` falls through. -/
def overridesCA (city : String) : Option String :=
  if city = "Bakerfield" then some "Bakersfield"
  else if city = "Big Bear" then some "Big Bear Lake"
  else if city = "Toluca" then some "Toluca Lake"
  else if (city = "June" || city = "June Lake,") then some "June Lake"
  else if (city = "Mt." || city = "Mt") then some "Mt. Shasta"
  else if city = "29 Palms" then some "Twentynine Palms"
  else if city = "Twenty-Nine Palms" then some "Twentynine Palms"
  else if city = "Camp Pendelton" then some "Camp Pendleton"
  else if city = "Cathedral Cty" then some "Cathedral City"
  else if city = "Clearlake Oaks" then some "Clear Lake Oaks"
  else if city = "Desert Hot Sprngs" then some "Desert Hot Springs"
  else if city = "E Los Angeles" then some "East Los Angeles"
  else if city = "La Canada Flintridge" then some "La Cañada Flintridge"
  else if city = "Lahabra" then some "La Habra"
  else if city = "Lamirada" then some "La Mirada"
  else if (city = "N Hollywood" || city = "N. Hollywood") then some "North Hollywood"
  else if city = "Quartzhill" then some "Quartz Hill"
  else if city = "Redondo Bch." then some "Redondo Beach"
  else if city = "Rncho Snta Margarita" then some "Rancho Santa Margarita"
  else if city = "Rolling Hills Estate" then some "Rolling Hills Estates"
  else if city = "S Los Angeles" then some "South Los Angeles"
  else if city = "S. Pasadena" then some "South Pasadena"
  else if city = "S. San Francisco" then some "South San Francisco"
  else if city = "Sacramento," then some "Sacramento"
  else if city = "Shasta Lake City" then some "Shasta Lake"
  else if city = "St. Helena" then some "Saint Helena"
  else if city = "Suisun City" then some "Suisun"
  else if city = "W Merced" then some "West Merced"
  else if city = "Bell," then some "Bell"
  else if city = "Windsor," then some "Windsor"
  else none

/-- The `state === 'MI'` override block(s) of `normalizeCity`,
in source order; `some` is an early return, `none` falls through. -/
def overridesMI (city : String) : Option String :=
  if city = "Manitou Beach-Devils" then some "Manitou Beach"
  else if city = "Whitmore" then some "Whitmore Lake"
  else if city = "White" then some "White Lake"
  else if city = "Centerline" then some "Center Line"
  else if city = "De Tour Village" then some "DeTour Village"
  else if city = "De Witt" then some "DeWitt"
  else if city = "Houghton Lake Heights" then some "Houghton Lake"
  else if city = "Hree Rivers" then some "Three Rivers"
  else if city = "Mt Pleasant" then some "Mount Pleasant"
  else if city = "Sault Ste. Marie" then some "Sault Sainte Marie"
  else if (city = "St Joseph" || city = "St. Joseph") then some "Saint Joseph"
  else if city = "St. Charles" then some "Saint Charles"
  else if city = "St. Clair" then some "Saint Clair"
  else if city = "St. Clair Shores" then some "Saint Clair Shores"
  else if city = "St. Helen" then some "Saint Helen"
  else if city = "St. Ignace" then some "Saint Ignace"
  else if city = "St. Johns" then some "Saint Johns"
  else if city = "St. Louis" then some "Saint Louis"
  else if city = "W Bloomfield" then some "West Bloomfield"
  else if city = "Gaylord.." then some "Gaylord"
  else if (city = "Canton Twp" || city = "Canton Township") then some "Canton"
  else if (city = "Chesterfield Twp" || city = "Chesterfield Townshi") then some "Chesterfield"
  else if city = "Clinton Township" then some "Clinton"
  else if (city = "Commerce Twp" || city = "Commerce Township") then some "Commerce"
  else if (city = "Macomb Twp." || city = "Macomb Township") then some "Macomb"
  else if (city = "Redford Twp" || city = "Redford Township") then some "Redford"
  else if city = "Shelby Township" then some "Shelby"
  else if (city = "Waterford Twp" || city = "Waterford Twp.") then some "Waterford"
  else if city = "White Lake Township" then some "White Lake"
  else if city = "Wyoming, Mi" then some "Wyoming"
  else if city = "Battle Creek, Mi" then some "Battle Creek"
  else none

/-- The `state === 'ND'` override block(s) of `normalizeCity`,
in source order; `some` is an early return, `none` falls through. -/
def overridesND (city : String) : Option String :=
  if city = "St. Michael" then some "St Michael"
  else if (city = "Devils" || city = "Devil\x27s" || city = "Devil\x27s Lake")
      then some "Devils Lake"
  else if city = "Bismark" then some "Bismarck"
  else none

/-- The `state === 'AK'` override block(s) of `normalizeCity`,
in source order; `some` is an early return, `none` falls through. -/
def overridesAK (city : String) : Option String :=
  if city = "St. Michael" then some "Saint Michael"
  else none

/-- The `state === 'AR'` override block(s) of `normalizeCity`,
in source order; `some` is an early return, `none` falls through. -/
def overridesAR (city : String) : Option String :=
  if city = "De Valls Bluff" then some "DeValls Bluff"
  else if city = "De Witt" then some "DeWitt"
  else if city = "Dequeen" then some "De Queen"
  else if city = "Eldorado" then some "El Dorado"
  else if city = "Heber Spgs" then some "Heber Springs"
  else if city = "Jacksonsville" then some "Jacksonville"
  else if city = "Mammoth Springs" then some "Mammoth Spring"
  else if city = "Mc Crory" then some "McCrory"
  else if (city = "N Little Rock" || city = "N. Little Rock") then some "North Little Rock"
  else if city = "Baldknob" then some "Bald Knob"
  else if city = "St. Joe" then some "Saint Joe"
  else if city = "St. Paul" then some "Saint Paul"
  else none

/-- The `state === 'TN'` override block(s) of `normalizeCity`,
in source order; `some` is an early return, `none` falls through. -/
def overridesTN (city : String) : Option String :=
  if city = "Chattanoooga" then some "Chattanooga"
  else if city = "Moristown" then some "Morristown"
  else if city = "Lafollette" then some "La Follette"
  else if city = "Lavergne" then some "La Vergne"
  else if city = "Mc Ewen" then some "McEwen"
  else if city = "Mc Kenzie" then some "McKenzie"
  else if (city = "Mt Juliet" || city = "Mt. Juliet") then some "Mount Juliet"
  else if (city = "Mt Pleasant" || city = "Mt. Pleasant") then some "Mount Pleasant"
  else if city = "Ootlewah" then some "Ooltewah"
  else if city = "S Pittsburg" then some "South Pittsburg"
  else if city = "Thompson\x27s Station" then some "Thompsons Station"
  else if city = "St. Joseph" then some "Saint Joseph"
  else none

/-- The `state === 'VT'` override block(s) of `normalizeCity`,
in source order; `some` is an early return, `none` falls through. -/
def overridesVT (city : String) : Option String :=
  if city = "South" then some "South Burlington"
  else if (city = "St. Albans" || city = "St. Albans City" || city = "St. Albans Town")
      then some "Saint Albans"
  else if city = "St. Johnsbury" then some "Saint Johnsbury"
  else if city = "White River Jct" then some "White River Junction"
  else none

/-- The `state === 'OH'` override block(s) of `normalizeCity`,
in source order; `some` is an early return, `none` falls through. -/
def overridesOH (city : String) : Option String :=
  if city = "St. Mary" then some "St. Marys"
  else if city = "Canal" then some "Canal Fulton"
  else if (city = "Mentor On The" || city = "Mentor On the") then some "Mentor-on-the-Lake"
  else if city = "Buckeye" then some "Buckeye Lake"
  else if city = "Upper" then some "Upper Arlington"
  else if city = "Beford" then some "Bedford"
  else if city = "Beaver Creek" then some "Beavercreek"
  else if city = "Beaver Dam" then some "Beaverdam"
  else if (city = "E Liverpool" || city = "E. Liverpool") then some "East Liverpool"
  else if city = "Maysvile" then some "Maysville"
  else if (city = "Mt Orab" || city = "Mt. Orab") then some "Mount Orab"
  else if (city = "Mt Eaton" || city = "Mt. Eaton") then some "Mount Eaton"
  else if (city = "Mt Vernon" || city = "Mt.Vernon" || city = "Mt. Vernon")
      then some "Mount Vernon"
  else if (city = "W Alexandria" || city = "W. Alexandria") then some "West Alexandria"
  else if (city = "Washington Ct. House" || city = "Washington Ct House"
      || city = "Washington Court Hou") then some "Washington Court House"
  else if (city = "West Chester Twp" || city = "West Chester Twp.")
      then some "West Chester Township"
  else if (city = "Sylvania Twp" || city = "Sylvania Twp.") then some "Sylvania Township"
  else if (city = "Washington Twp" || city = "Washington Twp.") then some "Washington Township"
  else if (city = "Brookfield Twp" || city = "Brookfield Twp.") then some "Brookfield Township"
  else none

/-- The `state === 'MO'` override block(s) of `normalizeCity`,
in source order; `some` is an early return, `none` falls through. -/
def overridesMO (city : String) : Option String :=
  if city = "Saint Louis" then some "St. Louis"
  else if city = "St Louis" then some "St. Louis"
  else if city = "St Louis Park" then some "St. Louis"
  else if city = "St Peters" then some "St. Peters"
  else if (city = "Lees" || city = "Lee\x27s") then some "Lee\x27s Summit"
  else if city = "Holts" then some "Holts Summit"
  else if (city = "Lee Summit" || city = "Lees Summit") then some "Lee\x27s Summit"
  else if (city = "St.Louis" || city = "St.louis") then some "St. Louis"
  else none

/-- The `state === 'FL'` override block(s) of `normalizeCity`,
in source order; `some` is an early return, `none` falls through. -/
def overridesFL (city : String) : Option String :=
  if (city = "St Petersburg" || city = "St. Petersburg" || city = "St.Petersburg")
      then some "Saint Petersburg"
  else if (city = "St Augustine" || city = "St. Augustine" || city = "St.Augustine")
      then some "Saint Augustine"
  else if (city = "St. Augustine Beach" || city = "St Augustine Beach")
      then some "Saint Augustine Beach"
  else if (city = "St Cloud" || city = "St. Cloud") then some "Saint Cloud"
  else if (city = "St. Pete Beach" || city = "St Pete Beach") then some "Saint Pete Beach"
  else if (city = "St. Marks" || city = "St Marks") then some "Saint Marks"
  else if (city = "St. Johns" || city = "St Johns" || city = "St. John") then some "Saint Johns"
  else if (city = "St. George Island" || city = "St George Island")
      then some "Saint George Island"
  else if (city = "St. James City" || city = "St James City") then some "Saint James City"
  else if (city = "Ft Lauderdale" || city = "Ft. Lauderdale" || city = "Ft.Lauderdale")
      then some "Fort Lauderdale"
  else if (city = "Ft Myers" || city = "Ft. Myers") then some "Fort Myers"
  else if (city = "Ft Pierce" || city = "Ft. Pierce") then some "Fort Pierce"
  else if (city = "Ft Walton Beach" || city = "Ft. Walton Beach"
      || city = "Ft Walton Bch") then some "Fort Walton Beach"
  else if (city = "N. Lauderdale" || city = "N Lauderdale") then some "North Lauderdale"
  else if (city = "N. Miami" || city = "N Miami") then some "North Miami"
  else if city = "N. Margate" then some "Margate"
  else if city = "W Palm Beach" then some "West Palm Beach"
  else if city = "Cheifland" then some "Chiefland"
  else if (city = "Coral Spings" || city = "Coral Spring") then some "Coral Springs"
  else if city = "Deerfield Bch" then some "Deerfield Beach"
  else if city = "Green Cove Spring" then some "Green Cove Springs"
  else if city = "Hallandale" then some "Hallandale Beach"
  else if city = "Jacksonsville" then some "Jacksonville"
  else if city = "Lake Worth" then some "Lake Worth Beach"
  else if city = "Satellite Bch" then some "Satellite Beach"
  else if city = "St. Petesburg" then some "Saint Petersburg"
  else if city = "Tavenier" then some "Tavernier"
  else if (city = "Altamonte Spg" || city = "Altamonte Spri Gs") then some "Altamonte Springs"
  else if city = "Mt Dora" then some "Mount Dora"
  else if (city = "Deland" || city = "De Land") then some "DeLand"
  else if (city = "Defuniak Spg" || city = "Defuniak Springs") then some "DeFuniak Springs"
  else if city = "Fort" then some "Fort Myers"
  else if city = "West" then some "West Palm Beach"
  else if city = "Port" then some "Port St. Lucie"
  else if city = "Lady" then some "Lady Lake"
  else if city = "Royal" then some "Royal Palm Beach"
  else none

/-- The `state === 'TX'` override block(s) of `normalizeCity`,
in source order; `some` is an early return, `none` falls through. -/
def overridesTX (city : String) : Option String :=
  if (city = "Dfw Airport" || city = "DFW Airport") then some "Dallas"
  else if city = "Bee Caves" then some "Bee Cave"
  else if city = "Deerpark" then some "Deer Park"
  else if city = "Gerogetown" then some "Georgetown"
  else if city = "Halletsville" then some "Hallettsville"
  else if city = "Kileen" then some "Killeen"
  else if city = "Leaque City" then some "League City"
  else if (city = "Mt Belveiu" || city = "Mt. Belvieu" || city = "Mount Belveiu")
      then some "Mont Belvieu"
  else if city = "Prarie View" then some "Prairie View"
  else if city = "China Spring" then some "China Springs"
  else if city = "Van Veleck" then some "Van Vleck"
  else none

/-- The `state === 'MN'` override block(s) of `normalizeCity`,
in source order; `some` is an early return, `none` falls through. -/
def overridesMN (city : String) : Option String :=
  if (city = "St Paul" || city = "St. Paul" || city = "St.Paul") then some "Saint Paul"
  else if (city = "Saint Louis" || city = "St Louis Park" || city = "St. Louis Park"
      || city = "St.Louis Park") then some "Saint Louis Park"
  else if city = "Forest" then some "Forest Lake"
  else if city = "Prior" then some "Prior Lake"
  else if city = "Hutchinsonn" then some "Hutchinson"
  else if city = "Lesueur" then some "Le Sueur"
  else if (city = "N St. Paul" || city = "North St. Paul") then some "North Saint Paul"
  else if city = "South St. Paul" then some "South Saint Paul"
  else if (city = "W St. Paul" || city = "West St. Paul") then some "West Saint Paul"
  else if city = "Marine On St. Croix" then some "Marine on Saint Croix"
  else if city = "Lake St. Croix Beach" then some "Lake Saint Croix Beach"
  else if (city = "St Cloud" || city = "St. Cloud") then some "Saint Cloud"
  else if city = "St. Anthony" then some "Saint Anthony"
  else if city = "St. Augusta" then some "Saint Augusta"
  else if city = "St. Bonifacius" then some "Saint Bonifacius"
  else if city = "St. Charles" then some "Saint Charles"
  else if city = "St. Clair" then some "Saint Clair"
  else if city = "St. Francis" then some "Saint Francis"
  else if city = "St. James" then some "Saint James"
  else if city = "St. Joseph" then some "Saint Joseph"
  else if city = "St. Michael" then some "Saint Michael"
  else if city = "St. Peter" then some "Saint Peter"
  else none

/-- The `state === 'WA'` override block(s) of `normalizeCity`,
in source order; `some` is an early return, `none` falls through. -/
def overridesWA (city : String) : Option String :=
  if city = "Walla" then some "Walla Walla"
  else if city = "Moses" then some "Moses Lake"
  else if city = "Bonney" then some "Bonney Lake"
  else if city = "Liberty" then some "Liberty Lake"
  else if (city = "E.Wenatchee" || city = "E. Wenatchee" || city = "E Wenatchee")
      then some "East Wenatchee"
  else if city = "Lynwood" then some "Lynnwood"
  else if (city = "Mt.Vernon" || city = "Mt. Vernon" || city = "Mt Vernon")
      then some "Mount Vernon"
  else if city = "Spokane City" then some "Spokane"
  else none

/-- The `state === 'PA'` override block(s) of `normalizeCity`,
in source order; `some` is an early return, `none` falls through. -/
def overridesPA (city : String) : Option String :=
  if city = "Clarks" then some "Clarks Summit"
  else if city = "West" then some "West Chester"
  else if city = "Dicksoncity" then some "Dickson City"
  else if city = "Jeanette" then some "Jeannette"
  else if (city = "Emmaus" || city = "Emaus") then some "Emmaus"
  else if (city = "E-town" || city = "E-Town") then some "Elizabethtown"
  else if city = "Mc Sherrystown" then some "McSherrystown"
  else if (city = "N Versailles" || city = "N. Versailles") then some "North Versailles"
  else if (city = "N Huntingdon" || city = "N. Huntingdon") then some "North Huntingdon"
  else if (city = "Cranberry Twp" || city = "Cranberry Twp.") then some "Cranberry Township"
  else if (city = "Ross Twp" || city = "Ross Twp.") then some "Ross Township"
  else if (city = "Scott Twp" || city = "Scott Twp.") then some "Scott Township"
  else if (city = "Hanover Twp" || city = "Hanover Twp.") then some "Hanover Township"
  else if city = "Mt. Airy" then some "Mount Airy"
  else if city = "Mt. Penn" then some "Mount Penn"
  else none

/-- The `state === 'LA'` override block(s) of `normalizeCity`,
in source order; `some` is an early return, `none` falls through. -/
def overridesLA (city : String) : Option String :=
  if city = "West" then some "West Monroe"
  else if city = "Gonzalez" then some "Gonzales"
  else if city = "Barksdale Air Force Base" then some "Barksdale AFB"
  else if (city = "Laplace" || city = "La place") then some "LaPlace"
  else none

/-- The `state === 'IN'` override block(s) of `normalizeCity`,
in source order; `some` is an early return, `none` falls through. -/
def overridesIN (city : String) : Option String :=
  if (city = "Fort" || city = "Ft Wayne" || city = "Ft. Wayne") then some "Fort Wayne"
  else if (city = "Indianpolis" || city = "Indianapollis") then some "Indianapolis"
  else if city = "Lacrosse" then some "La Crosse"
  else if city = "Lagrange" then some "LaGrange"
  else if city = "Laporte" then some "La Porte"
  else if city = "Mt. Vernon" then some "Mount Vernon"
  else if city = "N Manchester" then some "North Manchester"
  else if city = "Poratage" then some "Portage"
  else if city = "Rolling Prarie" then some "Rolling Prairie"
  else if city = "St. Anthony" then some "Saint Anthony"
  else if (city = "St. John" || city = "St.John") then some "Saint John"
  else if city = "St. Meinrad" then some "Saint Meinrad"
  else if city = "St. Paul" then some "Saint Paul"
  else if city = "W Lafayette" then some "West Lafayette"
  else if city = "W Terre Haute" then some "West Terre Haute"
  else if city = "Valparaiso," then some "Valparaiso"
  else none

/-- The `state === 'MS'` override block(s) of `normalizeCity`,
in source order; `some` is an early return, `none` falls through. -/
def overridesMS (city : String) : Option String :=
  if city = "Horn" then some "Horn Lake"
  else if city = "Bay St. Louis" then some "Bay Saint Louis"
  else if (city = "Diberville" || city = "D\x27Iberville") then some "D\x27Iberville"
  else if city = "Dekalb" then some "DeKalb"
  else if city = "Luka" then some "Iuka"
  else if city = "Robinsville" then some "Robinsonville"
  else if city = "Southhaven" then some "Southaven"
  else none

/-- The `state === 'WI'` override block(s) of `normalizeCity`,
in source order; `some` is an early return, `none` falls through. -/
def overridesWI (city : String) : Option String :=
  if city = "Rice" then some "Rice Lake"
  else if city = "Camp" then some "Camp Douglas"
  else if city = "Paddock" then some "Paddock Lake"
  else if city = "De Forest" then some "DeForest"
  else if city = "Depere" then some "De Pere"
  else if city = "Fond Du Loc" then some "Fond du Lac"
  else if city = "Lacrosse" then some "La Crosse"
  else if city = "Mc Farland" then some "McFarland"
  else if city = "Milwakee" then some "Milwaukee"
  else if city = "Mt Horeb" then some "Mount Horeb"
  else if city = "S Beloit" then some "South Beloit"
  else if city = "St. Cloud" then some "Saint Cloud"
  else if city = "St. Croix Falls" then some "Saint Croix Falls"
  else if city = "St. Francis" then some "Saint Francis"
  else if city = "St. Germain" then some "Saint Germain"
  else if city = "Westbend" then some "West Bend"
  else if city = "Ashwaubenon," then some "Ashwaubenon"
  else if city = "Oshkosh," then some "Oshkosh"
  else none

/-- The `state === 'IL'` override block(s) of `normalizeCity`,
in source order; `some` is an early return, `none` falls through. -/
def overridesIL (city : String) : Option String :=
  if city = "Crystal" then some "Crystal Lake"
  else if city = "Island" then some "Island Lake"
  else if city = "Third" then some "Third Lake"
  else if city = "Wonder" then some "Wonder Lake"
  else if city = "Round" then some "Round Lake"
  else none

/-- The `state === 'NJ'` override block(s) of `normalizeCity`,
in source order; `some` is an early return, `none` falls through. -/
def overridesNJ (city : String) : Option String :=
  if city = "Budd" then some "Budd Lake"
  else if city = "East" then some "East Orange"
  else if city = "West" then some "West Orange"
  else if city = "North" then some "North Bergen"
  else if (city = "E Brunswick" || city = "E. Brunswick") then some "East Brunswick"
  else if (city = "E Rutherford" || city = "E. Rutherford") then some "East Rutherford"
  else if (city = "E Windsor" || city = "E. Windsor") then some "East Windsor"
  else if (city = "N Brunswick" || city = "N. Brunswick") then some "North Brunswick"
  else if city = "Kearney" then some "Kearny"
  else if city = "Passiac" then some "Passaic"
  else if (city = "Princeton Jct" || city = "Princeton Jct.") then some "Princeton Junction"
  else if city = "Saddlebrook" then some "Saddle Brook"
  else if city = "West Patterson" then some "West Paterson"
  else if city = "Woodcliff" then some "Woodcliff Lake"
  else if (city = "Egg Hbr Twp" || city = "Egg Harbor Twsp" || city = "Egg Harbor Twsp.")
      then some "Egg Harbor Township"
  else if (city = "Mt Laurel Twp" || city = "Mt Laurel Township"
      || city = "Mt. Laurel Township") then some "Mount Laurel Township"
  else if (city = "Green Brook Twp" || city = "Green Brook Twp.") then some "Green Brook Township"
  else if (city = "Ocean Twp" || city = "Ocean Twp.") then some "Ocean Township"
  else if (city = "Monroe Twp" || city = "Monroe Twp.") then some "Monroe Township"
  else if (city = "Hamilton Twp" || city = "Hamilton Twp.") then some "Hamilton Township"
  else if (city = "Ewing Twp" || city = "Ewing Twp.") then some "Ewing Township"
  else if (city = "Evesham Twp" || city = "Evesham Twp.") then some "Evesham Township"
  else if (city = "Hazlet Twsp" || city = "Hazlet Twsp.") then some "Hazlet Township"
  else none

/-- The `state === 'WV'` override block(s) of `normalizeCity`,
in source order; `some` is an early return, `none` falls through. -/
def overridesWV (city : String) : Option String :=
  if city = "South" then some "South Charleston"
  else if city = "Kanawha Ciy" then some "Kanawha City"
  else if city = "Mineralwells" then some "Mineral Wells"
  else if city = "Mt Hope" then some "Mount Hope"
  else if city = "Nutterfort" then some "Nutter Fort"
  else if city = "Phillipi" then some "Philippi"
  else if city = "S Charleston" then some "South Charleston"
  else if city = "Slatyfork" then some "Slatyfork"
  else if city = "St. Albans" then some "Saint Albans"
  else if (city = "St. Mary\x27s" || city = "St. Marys") then some "Saint Marys"
  else if city = "White Hall" then some "Whitehall"
  else none

/-- The `state === 'CO'` override block(s) of `normalizeCity`,
in source order; `some` is an early return, `none` falls through. -/
def overridesCO (city : String) : Option String :=
  if (city = "Fort" || city = "Ft Collins") then some "Fort Collins"
  else if city = "Bouler" then some "Boulder"
  else if city = "Colordao Spings" then some "Colorado Springs"
  else if city = "Dacano" then some "Dacono"
  else if city = "Debeque" then some "De Beque"
  else if city = "Lonetree" then some "Lone Tree"
  else none

/-- The `state === 'KS'` override block(s) of `normalizeCity`,
in source order; `some` is an early return, `none` falls through. -/
def overridesKS (city : String) : Option String :=
  if city = "Desoto" then some "De Soto"
  else if city = "Ft Leavenworth" then some "Fort Leavenworth"
  else if city = "Ft. Riley" then some "Fort Riley"
  else if city = "Ft. Scott" then some "Fort Scott"
  else if city = "Rosehill" then some "Rose Hill"
  else if city = "Springhill" then some "Spring Hill"
  else if city = "St. Francis" then some "Saint Francis"
  else if city = "St. John" then some "Saint John"
  else if city = "St. Marys" then some "Saint Marys"
  else if city = "St. Paul" then some "Saint Paul"
  else if city = "Wa Keeney" then some "WaKeeney"
  else if city = "Wichita." then some "Wichita"
  else none

/-- The `state === 'KY'` override block(s) of `normalizeCity`,
in source order; `some` is an early return, `none` falls through. -/
def overridesKY (city : String) : Option String :=
  if city = "E Bernstadt" then some "East Bernstadt"
  else if city = "Erlinger" then some "Erlanger"
  else if city = "Florence," then some "Florence"
  else if city = "Ft Knox" then some "Fort Knox"
  else if (city = "Ft Mitchell" || city = "Ft. Mitchell") then some "Fort Mitchell"
  else if city = "Ft Wright" then some "Fort Wright"
  else if city = "Ft.Campbell" then some "Fort Campbell"
  else if city = "La Center" then some "LaCenter"
  else if city = "Lagrange" then some "La Grange"
  else if city = "Middlesborough" then some "Middlesboro"
  else if (city = "Mt Sterling" || city = "Mt. Sterling") then some "Mount Sterling"
  else if (city = "Mt Washington" || city = "Mt. Washington") then some "Mount Washington"
  else if city = "Smith\x27s Grove" then some "Smiths Grove"
  else if city = "St. Charles" then some "Saint Charles"
  else if city = "St. Matthews" then some "Saint Matthews"
  else none

/-- The `state === 'MD'` override block(s) of `normalizeCity`,
in source order; `some` is an early return, `none` falls through. -/
def overridesMD (city : String) : Option String :=
  if city = "Fort" then some "Fort Washington"
  else if city = "Ft. Meade" then some "Fort Meade"
  else if city = "Ft. Washington" then some "Fort Washington"
  else if city = "Camp Spring" then some "Camp Springs"
  else if city = "Captiol Heights" then some "Capitol Heights"
  else if city = "Ellicot City" then some "Ellicott City"
  else if city = "Hyatsville" then some "Hyattsville"
  else if city = "Laplata" then some "La Plata"
  else if city = "Mc Henry" then some "McHenry"
  else if city = "Smithburg" then some "Smithsburg"
  else if city = "St. Leonard" then some "Saint Leonard"
  else if city = "St. Michaels" then some "Saint Michaels"
  else if city = "W Ocean City" then some "West Ocean City"
  else if city = "Prince Frederick," then some "Prince Frederick"
  else none

/-- The `state === 'MA'` override block(s) of `normalizeCity`,
in source order; `some` is an early return, `none` falls through. -/
def overridesMA (city : String) : Option String :=
  if (city = "Foxborough" || city = "Foxborough (Foxboro)") then some "Foxboro"
  else if city = "Lanesborough" then some "Lanesboro"
  else if city = "Marlborough" then some "Marlboro"
  else if city = "Middleborough" then some "Middleboro"
  else if city = "North Attleborough" then some "North Attleboro"
  else if city = "Northborough" then some "Northboro"
  else if city = "Plainvile" then some "Plainville"
  else if city = "Southborough" then some "Southboro"
  else if city = "Tyngsborough" then some "Tyngsboro"
  else if city = "Westborough" then some "Westboro"
  else if city = "Natick," then some "Natick"
  else none

/-- The `state === 'NC'` override block(s) of `normalizeCity`,
in source order; `some` is an early return, `none` falls through. -/
def overridesNC (city : String) : Option String :=
  if city = "Spring" then some "Spring Lake"
  else if city = "W.T. Harris Blvd" then some "Charlotte"
  else if city = "Ashboro" then some "Asheboro"
  else if city = "Fuquay" then some "Fuquay-Varina"
  else if city = "Fort Mills" then some "Fort Mill"
  else if (city = "Mt Pleasant" || city = "Mt. Pleasant") then some "Mount Pleasant"
  else if (city = "N Topsail Beach" || city = "N. Topsail Beach") then some "North Topsail Beach"
  else if (city = "Winston -Salem" || city = "Winston- Salem" || city = "Winston Salem")
      then some "Winston-Salem"
  else none

/-- The `state === 'IA'` override block(s) of `normalizeCity`,
in source order; `some` is an early return, `none` falls through. -/
def overridesIA (city : String) : Option String :=
  if (city = "Clear" || city = "Clearlake") then some "Clear Lake"
  else if city = "Storm" then some "Storm Lake"
  else if city = "Spirit" then some "Spirit Lake"
  else if city = "Desoto" then some "De Soto"
  else if city = "Leclaire" then some "LeClaire"
  else if city = "Lemars" then some "Le Mars"
  else if (city = "Mt Pleasant" || city = "Mt. Vernon") then some "Mount Pleasant"
  else if (city = "St Ansgar" || city = "St. Ansgar") then some "Saint Ansgar"
  else if (city = "St Charles" || city = "St. Charles") then some "Saint Charles"
  else if city = "St Lucas" then some "Saint Lucas"
  else if city = "Lonetree" then some "Lone Tree"
  else none

/-- The `state === 'CT'` override block(s) of `normalizeCity`,
in source order; `some` is an early return, `none` falls through. -/
def overridesCT (city : String) : Option String :=
  if city = "West" then some "West Hartford"
  else if city = "East" then some "East Hartford"
  else if (city = "W Hartford" || city = "W. Hartford") then some "West Hartford"
  else if city = "Stafford Springs" then some "Stafford"
  else if city = "Mansfield Center" then some "Mansfield"
  else if city = "Pomfret Center" then some "Pomfret"
  else if city = "Killingworth Village" then some "Killingworth"
  else if city = "Woodstock Valley" then some "Woodstock"
  else none

/-- The `state === 'UT'` override block(s) of `normalizeCity`,
in source order; `some` is an early return, `none` falls through. -/
def overridesUT (city : String) : Option String :=
  if (city = "St George" || city = "St. George") then some "Saint George"
  else if city = "Laverkin" then some "LaVerkin"
  else if (city = "Marriot-Slaterville" || city = "Marriott Slaterville")
      then some "Marriott-Slaterville"
  else if city = "Mt. Pleasant" then some "Mount Pleasant"
  else if city = "S Salt Lake" then some "South Salt Lake"
  else if city = "Spanish Fork (Spanis" then some "Spanish Fork"
  else if city = "Washington City" then some "Washington"
  else if city = "West Valley Cit" then some "West Valley City"
  else none

/-- The `state === 'NV'` override block(s) of `normalizeCity`,
in source order; `some` is an early return, `none` falls through. -/
def overridesNV (city : String) : Option String :=
  if city = "N Las Vegas" then some "North Las Vegas"
  else if city = "South Lake Tahoe" then some "Lake Tahoe"
  else none

/-- The `state === 'NH'` override block(s) of `normalizeCity`,
in source order; `some` is an early return, `none` falls through. -/
def overridesNH (city : String) : Option String :=
  if city = "Center Conway" then some "Conway"
  else if city = "Center Ossipee" then some "Ossipee"
  else if city = "East Hampstead" then some "Hampstead"
  else if city = "North Conway" then some "Conway"
  else if city = "North Haverhill" then some "Haverhill"
  else if city = "North Swanzey" then some "Swanzey"
  else if city = "South Weare" then some "Weare"
  else if city = "West Chesterfield" then some "Chesterfield"
  else if city = "West Lebanon" then some "Lebanon"
  else if city = "West Ossipee" then some "Ossipee"
  else if city = "West Swanzey" then some "Swanzey"
  else none

/-- The `state === 'ME'` override block(s) of `normalizeCity`,
in source order; `some` is an early return, `none` falls through. -/
def overridesME (city : String) : Option String :=
  if city = "Augusta, Me" then some "Augusta"
  else if city = "N Berwick" then some "North Berwick"
  else if city = "N Waterboro" then some "North Waterboro"
  else if city = "St. Albans" then some "Saint Albans"
  else none

/-- The `state === 'MT'` override block(s) of `normalizeCity`,
in source order; `some` is an early return, `none` falls through. -/
def overridesMT (city : String) : Option String :=
  if city = "Big Fork" then some "Bigfork"
  else if city = "St. Ignatius" then some "Saint Ignatius"
  else if city = "St. Regis" then some "Saint Regis"
  else none

/-- The `state === 'WY'` override block(s) of `normalizeCity`,
in source order; `some` is an early return, `none` falls through. -/
def overridesWY (city : String) : Option String :=
  if city = "Casper (W)" then some "Casper"
  else if city = "Ft. Bridger" then some "Fort Bridger"
  else if city = "Laramie Wyoming" then some "Laramie"
  else if city = "Mt. View" then some "Mountain View"
  else none

/-- The `state === 'RI'` override block(s) of `normalizeCity`,
in source order; `some` is an early return, `none` falls through. -/
def overridesRI (city : String) : Option String :=
  if city = "E Providence" then some "East Providence"
  else if city = "N Smithfield" then some "North Smithfield"
  else none

/-- The `state === 'NE'` override block(s) of `normalizeCity`,
in source order; `some` is an early return, `none` falls through. -/
def overridesNE (city : String) : Option String :=
  if city = "Ft. Calhoun" then some "Fort Calhoun"
  else if city = "O Neill" then some "O\x27Neill"
  else if city = "St. Paul" then some "Saint Paul"
  else none

/-- The `state === 'ON'` override block(s) of `normalizeCity`,
in source order; `some` is an early return, `none` falls through. -/
def overridesON (city : String) : Option String :=
  if (city = "Scarborough" || city = "North York") then some "Toronto"
  else if (city = "Barrhaven" || city = "Orleans" || city = "Orléans") then some "Ottawa"
  else if (city = "St Catharines" || city = "Saint Catharines") then some "St. Catharines"
  else if (city = "St Thomas" || city = "Saint Thomas") then some "St. Thomas"
  else if city = "Sudbury" then some "Greater Sudbury"
  else if city = "Bradford" then some "Bradford West Gwillimbury"
  else if city = "Rockland" then some "Clarence-Rockland"
  else none

/-- The `state === 'AB'` override block(s) of `normalizeCity`,
in source order; `some` is an early return, `none` falls through. -/
def overridesAB (city : String) : Option String :=
  if (city = "St Albert" || city = "St. Albert") then some "Saint Albert"
  else if (city = "St Paul" || city = "St. Paul") then some "Saint Paul"
  else if city = "Lac La Biche" then some "Lac La Biche County"
  else if city = "Rocky View" then some "Rocky View County"
  else none

/-- The `state === 'BC'` override block(s) of `normalizeCity`,
in source order; `some` is an early return, `none` falls through. -/
def overridesBC (city : String) : Option String :=
  if city = "Westbank" then some "West Kelowna"
  else none

/-- The `state === 'NL'` override block(s) of `normalizeCity`,
in source order; `some` is an early return, `none` falls through. -/
def overridesNL (city : String) : Option String :=
  if (city = "St. John\x27s" || city = "St John\x27s" || city = "St Johns")
      then some "Saint John\x27s"
  else none

/-- The `state === 'AL'` override block(s) of `normalizeCity`,
in source order; `some` is an early return, `none` falls through. -/
def overridesAL (city : String) : Option String :=
  if city = "Madsion" then some "Madison"
  else if city = "Henager" then some "Henagar"
  else if city = "Hunstville" then some "Huntsville"
  else if (city = "Bayou la Batre" || city = "Bayou Labatre") then some "Bayou La Batre"
  else if city = "Dixon Mills" then some "Dixons Mills"
  else if city = "Eufala" then some "Eufaula"
  else if city = "Laceys Spring" then some "Lacey Springs"
  else if city = "Lakeview" then some "Lake View"
  else if city = "Montomery" then some "Montgomery"
  else if city = "Norhtport" then some "Northport"
  else if city = "Owens Crossroads" then some "Owens Cross Roads"
  else if city = "Pell" then some "Pell City"
  else if city = "Pleasant Groves" then some "Pleasant Grove"
  else if (city = "Prattvile" || city = "Pratville") then some "Prattville"
  else if city = "Rainesville" then some "Rainsville"
  else if city = "Saraland," then some "Saraland"
  else if city = "Smith Station" then some "Smiths Station"
  else if city = "Tucaloosa" then some "Tuscaloosa"
  else if (city = "test" || city = "Test") then some ""
  else if (city = "Ft. Novosel" || city = "Ft Novosel") then some "Fort Novosel"
  else if city = "G Hoover" then some "Hoover"
  else if city = "Mc Calla" then some "McCalla"
  else if city = "Town of Pike Road" then some "Pike Road"
  else if city = "Tuskegee Institute" then some "Tuskegee"
  else if city = "Pelham (Birmingham)" then some "Pelham"
  else none

/-- The `state === 'DC'` override block(s) of `normalizeCity`,
in source order; `some` is an early return, `none` falls through. -/
def overridesDC (city : String) : Option String :=
  if csStartsWith city "Thompson Washington" then some "Washington"
  else none

/-- The `state === 'GA'` override block(s) of `normalizeCity`,
in source order; `some` is an early return, `none` falls through. -/
def overridesGA (city : String) : Option String :=
  if (city = "Saint Simon\x27s Island" || city = "St. Simon\x27s Island"
      || city = "St Simons Is" || city = "St. Simons" || city = "Saint Simons")
      then some "Saint Simons Island"
  else if city = "Alpheretta" then some "Alpharetta"
  else if city = "Tocooa" then some "Toccoa"
  else if city = "Bryon" then some "Byron"
  else if (city = "Warner Robbins" || city = "Warner-Robins") then some "Warner Robins"
  else if city = "Carralton" then some "Carrollton"
  else if city = "Mc Caysville" then some "McCaysville"
  else if city = "Mc Rae" then some "McRae"
  else if city = "McRae Helena" then some "McRae-Helena"
  else if (city = "St. Simons Island" || city = "St Simons Island")
      then some "Saint Simons Island"
  else if (city = "St. Mary" || city = "St Mary" || city = "Saint Mary") then some "St. Marys"
  else none

/-- The `state === 'SC'` override block(s) of `normalizeCity`,
in source order; `some` is an early return, `none` falls through. -/
def overridesSC (city : String) : Option String :=
  if (city = "N Augusta" || city = "N. Augusta") then some "North Augusta"
  else if city = "Lady\x27s Island" then some "Ladys Island"
  else none

/-- The `state === 'OR'` override block(s) of `normalizeCity`,
in source order; `some` is an early return, `none` falls through. -/
def overridesOR (city : String) : Option String :=
  if city = "Milwaukee" then some "Milwaukie"
  else none

/-- The `state === 'QC'` override block(s) of `normalizeCity`,
in source order; `some` is an early return, `none` falls through. -/
def overridesQC (city : String) : Option String :=
  if city = "Montreal" then some "Montréal"
  else if city = "Quebec" then some "Québec"
  else if city = "Levis" then some "Lévis"
  else if (city = "St-Eustache" || city = "St. Eustache" || city = "St Eustache")
      then some "Saint-Eustache"
  else if (city = "Saint-Bruno" || city = "St-Bruno" || city = "St. Bruno")
      then some "Saint-Bruno-de-Montarville"
  else if (city = "Lasalle" || city = "La Salle" || city = "LaSalle") then some "Montréal"
  else if (city = "Beauport" || city = "Sainte-Foy") then some "Québec"
  else none

/-- The per-state override tables of `normalizeCity` (lines 526-1274).
The source interleaves blocks for different states; since each block is
guarded by a test on `state`, grouping the blocks per state (keeping
their relative order) preserves the first-match semantics. -/
def stateOverride (state city : String) : Option String :=
  if state = "NY" then overridesNY city
  else if state = "AZ" then overridesAZ city
  else if state = "CA" then overridesCA city
  else if state = "MI" then overridesMI city
  else if state = "ND" then overridesND city
  else if state = "AK" then overridesAK city
  else if state = "AR" then overridesAR city
  else if state = "TN" then overridesTN city
  else if state = "VT" then overridesVT city
  else if state = "OH" then overridesOH city
  else if state = "MO" then overridesMO city
  else if state = "FL" then overridesFL city
  else if state = "TX" then overridesTX city
  else if state = "MN" then overridesMN city
  else if state = "WA" then overridesWA city
  else if state = "PA" then overridesPA city
  else if state = "LA" then overridesLA city
  else if state = "IN" then overridesIN city
  else if state = "MS" then overridesMS city
  else if state = "WI" then overridesWI city
  else if state = "IL" then overridesIL city
  else if state = "NJ" then overridesNJ city
  else if state = "WV" then overridesWV city
  else if state = "CO" then overridesCO city
  else if state = "KS" then overridesKS city
  else if state = "KY" then overridesKY city
  else if state = "MD" then overridesMD city
  else if state = "MA" then overridesMA city
  else if state = "NC" then overridesNC city
  else if state = "IA" then overridesIA city
  else if state = "CT" then overridesCT city
  else if state = "UT" then overridesUT city
  else if state = "NV" then overridesNV city
  else if state = "NH" then overridesNH city
  else if state = "ME" then overridesME city
  else if state = "MT" then overridesMT city
  else if state = "WY" then overridesWY city
  else if state = "RI" then overridesRI city
  else if state = "NE" then overridesNE city
  else if state = "ON" then overridesON city
  else if state = "AB" then overridesAB city
  else if state = "BC" then overridesBC city
  else if state = "NL" then overridesNL city
  else if state = "AL" then overridesAL city
  else if state = "DC" then overridesDC city
  else if state = "GA" then overridesGA city
  else if state = "SC" then overridesSC city
  else if state = "OR" then overridesOR city
  else if state = "QC" then overridesQC city
  else none

/-- `if (city.match(/^E\.?\s+/)) city = 'East ' + city.replace(/^E\.?\s+/, '')`
and the analogous N/S/W rules (lines 1278-1281): a leading directional
letter, an optional period, and a whitespace run are replaced by the full
direction word and one space. -/
def dirPrefixFix (dirCh : Char) (word : String) (city : String) : String :=
  match city.data with
  | c :: rest =>
    if c = dirCh then
      match rest with
      | '.' :: r =>
        if headIsWs r then word ++ " " ++ (⟨r.dropWhile jsIsWs⟩ : String)
        else city
      | r =>
        if headIsWs r then word ++ " " ++ (⟨r.dropWhile jsIsWs⟩ : String)
        else city
    else city
  | [] => city

/-- `city.replace(/\sHgts?$/i, ' Heights')` / `/\sSpgs?$/i` (lines
1284-1285): one whitespace character plus the abbreviation (optional final
letter, case-insensitive) at the end of the string. -/
def abbrevSuffixFix (long short rep : String) (city : String) : String :=
  let cs := city.data
  let n := cs.length
  let k := long.data.length
  if ciEndsWith city long &&
      (match cs.get? (n - k - 1) with
       | some c => jsIsWs c
       | none => false) then
    (⟨cs.take (n - k - 1)⟩ : String) ++ rep
  else
    let k2 := short.data.length
    if ciEndsWith city short &&
        (match cs.get? (n - k2 - 1) with
         | some c => jsIsWs c
         | none => false) then
      (⟨cs.take (n - k2 - 1)⟩ : String) ++ rep
    else city

/-- `if (city.match(/^Mc /)) city = 'Mc' + city.substring(3)` (line 1288). -/
def mcSpaceFix (city : String) : String :=
  if csStartsWith city "Mc " then "Mc" ++ (⟨city.data.drop 3⟩ : String)
  else city

/-- `if (city.match(/^Ft\s+/)) city = 'Fort' + city.substring(2)`
(line 1302): the whitespace run is kept by `substring(2)`. -/
def ftSpaceFix (city : String) : String :=
  match city.data with
  | 'F' :: 't' :: r =>
    if headIsWs r then "Fort" ++ (⟨r⟩ : String) else city
  | _ => city

/-- `if (city.match(/^Ft\.\s*/)) city = 'Fort ' +
city.substring(city.indexOf('.') + 1).trim()` (line 1303): the first `.`
of such a string is at index 2. -/
def ftDotFix (city : String) : String :=
  match city.data with
  | 'F' :: 't' :: '.' :: r => "Fort " ++ jsTrim (⟨r⟩ : String)
  | _ => city

/-- `if (city.match(/^Forth\s+/)) city = 'Fort' + city.substring(5)`
(line 1306). -/
def forthFix (city : String) : String :=
  match city.data with
  | 'F' :: 'o' :: 'r' :: 't' :: 'h' :: r =>
    if headIsWs r then "Fort" ++ (⟨r⟩ : String) else city
  | _ => city

/-- `if (city.match(/^Mt\s+/)) city = 'Mount' + city.substring(2)`
(line 1309). -/
def mtSpaceFix (city : String) : String :=
  match city.data with
  | 'M' :: 't' :: r =>
    if headIsWs r then "Mount" ++ (⟨r⟩ : String) else city
  | _ => city

/-- `if (city.match(/^Mt\.\s*/)) city = 'Mount ' +
city.substring(city.indexOf('.') + 1).trim()` (line 1310). -/
def mtDotFix (city : String) : String :=
  match city.data with
  | 'M' :: 't' :: '.' :: r => "Mount " ++ jsTrim (⟨r⟩ : String)
  | _ => city

/-- `city.replace(/ Ciy$/, ' City')` / `/ Cty$/` (lines 1313-1314):
case-sensitive, a single literal space. -/
def cityTypoSuffixFix (pat rep city : String) : String :=
  if csEndsWith city pat then
    (⟨city.data.take (city.data.length - pat.data.length)⟩ : String) ++ rep
  else city

/-- The multi-state exact-match typo dictionary (lines 1317-1345). -/
def commonTypoFix (city : String) : Option String :=
  if city = "Albuquereque" then some "Albuquerque"
  else if city = "Indianpolis" then some "Indianapolis"
  else if city = "Jacksonsville" then some "Jacksonville"
  else if city = "Mineapolis" then some "Minneapolis"
  else if city = "Milwakee" || city = "Milwauke" then some "Milwaukee"
  else if city = "Nashvill" then some "Nashville"
  else if city = "Pheonix" then some "Phoenix"
  else if city = "Queens Creek" then some "Queen Creek"
  else if city = "Alpheretta" then some "Alpharetta"
  else if city = "Chattanoooga" then some "Chattanooga"
  else if city = "Milsboro" then some "Millsboro"
  else if city = "Belle Chase" then some "Belle Chasse"
  else if city = "Hyatsville" then some "Hyattsville"
  else if city = "Rulleville" then some "Ruleville"
  else if city = "Pfaftown" then some "Pfafftown"
  else if city = "Bayone" then some "Bayonne"
  else if city = "Hewlet" then some "Hewlett"
  else if city = "Halstead" || city = "Hallsted" then some "Hallstead"
  else if city = "Bennetsville" then some "Bennettsville"
  else if city = "Murells Inlet" then some "Murrells Inlet"
  else if city = "Moristown" then some "Morristown"
  else if city = "Carollton" then some "Carrollton"
  else if city = "Jarrel" then some "Jarrell"
  else if city = "Creedmor" then some "Creedmoor"
  else if city = "Mezeppa" then some "Mazeppa"
  else if city = "Hohokus" then some "Ho-Ho-Kus"
  else if city = "Frankinton" then some "Franklinton"
  else none

/-- `if (city.endsWith('vile') && !city.endsWith('ville')) city =
city.slice(0, -4) + 'ville'` (lines 1348-1350). -/
def vileFix (city : String) : String :=
  if csEndsWith city "vile" && !csEndsWith city "ville" then
    (⟨city.data.take (city.data.length - 4)⟩ : String) ++ "ville"
  else city

/-- The general rules of `normalizeCity` after the per-state override
tables (lines 1276-1352), in source order. -/
def normalizeGeneralTail (city : String) : String :=
  let c1 := dirPrefixFix 'E' "East" city
  let c2 := dirPrefixFix 'N' "North" c1
  let c3 := dirPrefixFix 'S' "South" c2
  let c4 := dirPrefixFix 'W' "West" c3
  let c5 := abbrevSuffixFix "Hgts" "Hgt" " Heights" c4
  let c6 := abbrevSuffixFix "Spgs" "Spg" " Springs" c5
  let c7 := mcSpaceFix c6
  if c7 = "O Fallon" then "O\x27Fallon"
  else if c7 = "O Neill" then "O\x27Neill"
  else if c7 = "D Iberville" then "D\x27Iberville"
  else if c7 = "Coeur D Alene" || c7 = "Coeur D\x27 Alene" ||
      c7 = "Coeur dAlene" || c7 = "Coeur d\x27Alene" then "Coeur d\x27Alene"
  else
    let c8 := ftSpaceFix c7
    let c9 := ftDotFix c8
    let c10 := forthFix c9
    let c11 := mtSpaceFix c10
    let c12 := mtDotFix c11
    let c13 := cityTypoSuffixFix " Ciy" " City" c12
    let c14 := cityTypoSuffixFix " Cty" " City" c13
    match commonTypoFix c14 with
    | some r => r
    | none => vileFix c14

/-- `normalizeCity(city, state)` from `extract-brand.js` (lines 482-1353):
case repair, alias substitution (null aliases short-circuit to the empty
string), Saint/St and preposition normalization, hyphenated connector
lowercasing, the per-state override tables, and the general abbreviation
and typo rules. -/
def normalizeCity (aliases : AliasTable) (city state : String) : String :=
  if city = "" then ""
  else
    let c1 := preAliasStage city
    let c2 := applyCityAlias aliases c1 state
    if c2 = "" then ""
    else
      let c3 : String := ⟨saintFix false c2.data⟩
      let c4 : String := ⟨stFix false c3.data⟩
      let c5 : String := ⟨midWordLower 'd' 'u' c4.data⟩
      let c6 : String := ⟨midWordLower 'o' 'f' c5.data⟩
      let c7 := replaceAll c6 "-By-" "-by-"
      let c8 := replaceAll c7 "-The-" "-the-"
      let c9 := replaceAll c8 "-On-" "-on-"
      let c10 := replaceAll c9 "-In-" "-in-"
      let c11 := replaceAll c10 "-Of-" "-of-"
      let c12 := replaceAll c11 "-At-" "-at-"
      match stateOverride state c12 with
      | some r => r
      | none => normalizeGeneralTail c12

/-! ## `extract-brand.js`: Field Extractor -/

/-- `STATE_NAMES` (lines 201-212). -/
def STATE_NAMES : List String :=
  ["Alabama", "Alaska", "Arizona", "Arkansas", "California", "Colorado",
   "Connecticut", "Delaware", "Florida", "Georgia", "Hawaii", "Idaho",
   "Illinois", "Indiana", "Iowa", "Kansas", "Kentucky", "Louisiana", "Maine",
   "Maryland", "Massachusetts", "Michigan", "Minnesota", "Mississippi",
   "Missouri", "Montana", "Nebraska", "Nevada", "New Hampshire", "New Jersey",
   "New Mexico", "New York", "North Carolina", "North Dakota", "Ohio",
   "Oklahoma", "Oregon", "Pennsylvania", "Rhode Island", "South Carolina",
   "South Dakota", "Tennessee", "Texas", "Utah", "Vermont", "Virginia",
   "Washington", "West Virginia", "Wisconsin", "Wyoming",
   "District of Columbia"]

/-- `STATE_ABBREVS` for URL parsing (lines 1356-1362). -/
def STATE_ABBREVS : List String :=
  ["AL", "AK", "AZ", "AR", "CA", "CO", "CT", "DE", "FL", "GA", "HI", "ID",
   "IL", "IN", "IA", "KS", "KY", "LA", "ME", "MD", "MA", "MI", "MN", "MS",
   "MO", "MT", "NE", "NV", "NH", "NJ", "NM", "NY", "NC", "ND", "OH", "OK",
   "OR", "PA", "RI", "SC", "SD", "TN", "TX", "UT", "VT", "VA", "WA", "WV",
   "WI", "WY", "DC"]

/-- The `hotelKeywords` list of `isHotelOrResortName` (lines 131-149). -/
def hotelKeywords : List String :=
  ["hotel", "motel", "inn ", " inn", "resort", "lodge", "suites", "suite",
   "hyatt", "marriott", "hilton", "sheraton", "westin", "alila", "ritz",
   "four seasons", "fairmont", "intercontinental", "holiday house", "spa ",
   " spa", "ranch ", " ranch", "campground", "camping", "casa ", "hacienda",
   "villa ", "villas", "chateau", "manor", "beach resort", "golf course",
   "country club", "the pearl", "the bower", "the estate", "the laurel",
   "the shay", "dream hollywood", "gaige house", "sparrows lodge",
   "terra vita", "wild palms", "pioneertown", "mar monte", "marina riviera",
   "apartments", "byward market", "the june", "the walper", "the wilfrid",
   "spirit ridge", "under canvas", "andaz ", "elwood hotel", "holston house",
   "ette hotel", "siren hotel", "bluebird cady", "standard spa", "xv beacon",
   "richard rindge", "summercamp", "salt house inn",
   "christopher\x27s by the bay", "awol", "pell hotel", "block island beach",
   "lodge at spruce", "park hyatt", "convention center", "conference center",
   "dunton town", "vail residences", "austria haus",
   "cheyenne mountain resort", "fogo de", "rio all suite", "palazzo",
   "venetian", "the row"]

/-- The `invalidSingleWords` list of `isInvalidCityName` (lines 175-181). -/
def invalidSingleWords : List String :=
  ["west", "east", "north", "south", "mount", "mt", "mt.", "fort", "ft",
   "ft.", "lake", "port", "point", "camp", "china", "city", "downtown",
   "airport", "county", "area", "region", "center", "central", "plumas",
   "shasta", "lax", "sfo", "jfk", "ord", "dfw", "mia", "sea", "las", "phx",
   "seaworld", "disneyland", "disneyworld"]

/-- `isHotelOrResortName(name)` (lines 126-162). -/
def isHotelOrResortName (name : String) : Bool :=
  if name = "" then false
  else
    let lower := jsToLower name
    hotelKeywords.any (fun k => strContains lower k) ||
    csStartsWith lower "at " ||
    strContains lower " in the "

/-- `/^\d+\s/` on a string: one or more digits followed by whitespace
(since every shorter digit run is followed by a digit, the greedy parse is
exact). -/
def startsDigitsWs (l : List Char) : Bool :=
  match l with
  | c :: _ => isDigitChar c && headIsWs (l.dropWhile isDigitChar)
  | [] => false

/-- `/\([^)]+\)$/`: the string ends with a parenthetical — a `(`, at least
one non-`)` character, then the final `)`. -/
def endsWithParenthetical (l : List Char) : Bool :=
  match l.reverse with
  | ')' :: rest => ((rest.takeWhile (fun c => c ≠ ')')).drop 1).contains '('
  | _ => false

/-- `isInvalidCityName(name)` (lines 167-198). -/
def isInvalidCityName (name : String) : Bool :=
  if name = "" then true
  else
    let lower := jsToLower name
    if name.length < 2 then true
    else if invalidSingleWords.contains lower then true
    else if csStartsWith lower "city of " && lower.length < 12 then true
    else if csStartsWith lower "downtown " then true
    else if csEndsWith lower " area" then true
    else if csEndsWith lower " county" then true
    else if csEndsWith lower " airport" then true
    else if csEndsWith lower " california" then true
    else if strContains lower " / " then true
    else if startsDigitsWs lower.data then true
    else if strContains lower " dr" || strContains lower " rd" ||
        strContains lower " blvd" || strContains lower " ave" ||
        strContains lower " street" then true
    else if endsWithParenthetical lower.data then true
    else false

/-- Case-insensitive prefix test against a list of alternatives, for
regexes of the form `/^(a|b|..)/i`. -/
def startsWithCiAny (s : String) (pres : List String) : Bool :=
  pres.any fun p => ciIsPrefix p.data s.data

/-- `extractCityFromFull(addrFull)` (lines 221-253). -/
def extractCityFromFull (addrFull : String) : String :=
  if addrFull = "" then ""
  else
    let parts := (jsSplit addrFull ',').map jsTrim
    if parts.length < 2 then ""
    else
      let viaState :=
        match parts.findIdx? (fun p =>
            STATE_NAMES.any fun s => jsToLower s = jsToLower p) with
        | some i =>
          if i > 1 then
            let city := parts.getD (i - 1) ""
            if city ≠ "" && !patStartsDigit city &&
                !startsWithCiAny city ["space", "suite", "unit", "floor", "room"]
              then some city
            else none
          else none
        | none => none
      match viaState with
      | some c => c
      | none =>
        let secondPart := parts.getD 1 ""
        if secondPart ≠ "" && !patStartsDigit secondPart &&
            !startsWithCiAny secondPart
              ["space", "suite", "unit", "floor", "room", "mall"] &&
            !(STATE_NAMES.any fun s => jsToLower s = jsToLower secondPart) then
          secondPart
        else ""

/-- Split on a multi-character separator (head `s1`, tail `srest`), JS
`String.prototype.split` semantics, with fuel for kernel reduction. -/
def splitOnSubGo (fuel : ℕ) (s1 : Char) (srest : List Char) (l : List Char) :
    List (List Char) :=
  match fuel with
  | 0 => [l]
  | fuel + 1 =>
    match l with
    | [] => [[]]
    | c :: t =>
      if c = s1 && List.isPrefixOf srest t then
        [] :: splitOnSubGo fuel s1 srest (t.drop srest.length)
      else
        match splitOnSubGo fuel s1 srest t with
        | [] => [[c]]
        | h :: r => (c :: h) :: r

/-- JS `s.split(sep)` for a non-empty separator string. -/
def jsSplitSub (s sep : String) : List String :=
  match sep.data with
  | [] => [s]
  | c :: rest => (splitOnSubGo s.data.length c rest s.data).map fun l => ⟨l⟩

/-- The `\s+of\s+(.+)$` tail of pattern 2 of `extractCityFromName`: a
whitespace run, `of` (case-insensitive), a whitespace run, and a non-empty
remainder (when nothing follows the run, backtracking hands its last
character to the group). -/
def ofTailAt (rest : List Char) : Option (List Char) :=
  if headIsWs rest then
    match rest.dropWhile jsIsWs with
    | o :: f :: r2 =>
      if ciEq o 'o' && ciEq f 'f' && headIsWs r2 then
        let tail := r2.dropWhile jsIsWs
        if tail ≠ [] then some tail
        else if r2.length ≥ 2 then some (r2.drop (r2.length - 1))
        else none
      else none
    | _ => none
  else none

/-- Leftmost match of `/(?:Store|Grocery|Market|Shop|['’]s)\s+of\s+(.+)$/i`
(line 1429), returning the captured group.  The `['’]s` alternative is an
ASCII or right-quote apostrophe followed by `s`. -/
def nameOfPatGo (fuel : ℕ) (l : List Char) : Option (List Char) :=
  match fuel with
  | 0 => none
  | fuel + 1 =>
    match l with
    | [] => none
    | _ :: t =>
      let here :=
        if ciIsPrefix "Store".data l then ofTailAt (l.drop 5)
        else if ciIsPrefix "Grocery".data l then ofTailAt (l.drop 7)
        else if ciIsPrefix "Market".data l then ofTailAt (l.drop 6)
        else if ciIsPrefix "Shop".data l then ofTailAt (l.drop 4)
        else
          match l with
          | a :: s :: r =>
            if (a = '\x27' || a = '’') && ciEq s 's' then ofTailAt r
            else none
          | _ => none
      match here with
      | some g => some g
      | none => nameOfPatGo fuel t

/-- `/\s+Loc\.?\s*\d*$/i` removal (line 1434), parsed from the right. -/
def stripLocSuffix (city : String) : String :=
  let r := city.data.reverse
  let r1 := r.dropWhile isDigitChar
  let r2 := r1.dropWhile jsIsWs
  let r3 := match r2 with
    | '.' :: t => t
    | t => t
  match r3 with
  | c :: o :: l :: rest =>
    if ciEq c 'c' && ciEq o 'o' && ciEq l 'l' && headIsWs rest then
      ⟨(rest.dropWhile jsIsWs).reverse⟩
    else city
  | _ => city

/-- `/\s*&\s*\w+\s+Co\.?$/i` removal (line 1435), parsed from the right. -/
def stripAmpCoSuffix (city : String) : String :=
  let r := city.data.reverse
  let r1 := match r with
    | '.' :: t => t
    | t => t
  match r1 with
  | o :: c :: rest =>
    if ciEq o 'o' && ciEq c 'c' && headIsWs rest then
      let r2 := rest.dropWhile jsIsWs
      let w := r2.takeWhile isWordChar
      let r3 := r2.dropWhile isWordChar
      if w ≠ [] then
        match r3.dropWhile jsIsWs with
        | '&' :: r5 => ⟨(r5.dropWhile jsIsWs).reverse⟩
        | _ => city
      else city
    else city
  | _ => city

def isAsciiAlpha (c : Char) : Bool := isAsciiLower c || isAsciiUpper c

/-- Leftmost match of `/\s+(?:in|at)\s+([A-Za-z\s]+)$/i` (line 1440): the
captured group runs to the end of the string and may only contain ASCII
letters and whitespace. -/
def inAtPatGo (fuel : ℕ) (l : List Char) : Option (List Char) :=
  match fuel with
  | 0 => none
  | fuel + 1 =>
    match l with
    | [] => none
    | c :: t =>
      let here :=
        if jsIsWs c then
          match t.dropWhile jsIsWs with
          | x :: y :: r2 =>
            if ((ciEq x 'i' && ciEq y 'n') || (ciEq x 'a' && ciEq y 't')) &&
                headIsWs r2 then
              let tail := r2.dropWhile jsIsWs
              if tail ≠ [] then
                if tail.all (fun d => isAsciiAlpha d || jsIsWs d) then some tail
                else none
              else if r2.length ≥ 2 then some (r2.drop (r2.length - 1))
              else none
            else none
          | _ => none
        else none
      match here with
      | some g => some g
      | none => inAtPatGo fuel t

/-- Case-insensitive prefix test where `.` in the pattern is the regex
wildcard, for the interpolated `` new RegExp(`^${brandDisplayName}\\s*`) ``
of pattern 4 (line 1448). -/
def patCiIsPrefix : List Char → List Char → Bool
  | [], _ => true
  | _ :: _, [] => false
  | p :: ps, c :: cs => (p = '.' || ciEq p c) && patCiIsPrefix ps cs

/-- `remainder.replace(/#?\d+\s*/g, '')` (line 1450): every digit run,
optionally preceded by `#` and followed by whitespace, is removed. -/
def stripStoreNumsGo (fuel : ℕ) (l : List Char) : List Char :=
  match fuel with
  | 0 => l
  | fuel + 1 =>
    match l with
    | [] => []
    | '#' :: c :: t =>
      if isDigitChar c then
        stripStoreNumsGo fuel ((t.dropWhile isDigitChar).dropWhile jsIsWs)
      else '#' :: stripStoreNumsGo fuel (c :: t)
    | c :: t =>
      if isDigitChar c then
        stripStoreNumsGo fuel ((t.dropWhile isDigitChar).dropWhile jsIsWs)
      else c :: stripStoreNumsGo fuel t

/-- `/\s*(Store|Grocery|Market|Shop|Location)$/i` removal (line 1452): the
whitespace before the word is optional. -/
def stripTrailingStoreWord (city : String) : List String → String
  | [] => city
  | alt :: rest =>
    if ciEndsWith city alt then
      ⟨dropTrailingWs (city.data.take (city.data.length - alt.data.length))⟩
    else stripTrailingStoreWord city rest

/-- `extractCityFromName(name, brandDisplayName)` (lines 1415-1461). -/
def extractCityFromName (name brandDisplayName : String) : String :=
  if name = "" then ""
  else
    let parts := jsSplitSub name " - "
    let pat1 :=
      if parts.length ≥ 2 then
        let city := jsTrim (parts.getD (parts.length - 1) "")
        if city ≠ "" && !patStartsDigit city then some city else none
      else none
    match pat1 with
    | some c => c
    | none =>
      match nameOfPatGo name.data.length name.data with
      | some g =>
        let city1 := jsTrim ⟨g⟩
        let city2 := stripStateSuffix city1
        let city3 := stripLocSuffix city2
        stripAmpCoSuffix city3
      | none =>
        match inAtPatGo name.data.length name.data with
        | some g => jsTrim ⟨g⟩
        | none =>
          if brandDisplayName ≠ "" then
            let rem0 :=
              if patCiIsPrefix brandDisplayName.data name.data then
                ⟨(name.data.drop brandDisplayName.data.length).dropWhile jsIsWs⟩
              else name
            let rem1 := jsTrim rem0
            let rem2 := jsTrim ⟨stripStoreNumsGo rem1.data.length rem1.data⟩
            let rem3 := jsTrim (stripTrailingStoreWord rem2
              ["Store", "Grocery", "Market", "Shop", "Location"])
            if rem3 ≠ "" && rem3.length ≥ 3 && !patStartsDigit rem3 &&
                !startsWithCiAny rem3
                  ["blvd", "st", "ave", "rd", "dr", "ln", "ct", "way", "pk",
                   "pkwy", "hwy"] then
              rem3
            else ""
          else ""

/-- A character of the URL slug class `[a-z0-9-]` under the `i` flag. -/
def isSlugChar (c : Char) : Bool :=
  isAsciiLower c || isAsciiUpper c || isDigitChar c || c = '-'

/-- Leftmost match of `/\/(?:ritas-of-|location\/|store\/)([a-z0-9-]+)(?:\/|$)/i`
(line 1373), returning the captured slug.  The three alternatives start with
distinct letters, so at most one can follow a given `/`. -/
def urlSlugGo (fuel : ℕ) (l : List Char) : Option (List Char) :=
  match fuel with
  | 0 => none
  | fuel + 1 =>
    match l with
    | [] => none
    | c :: t =>
      let here :=
        if c = '/' then
          let try1 :=
            if ciIsPrefix "ritas-of-".data t then some (t.drop 9)
            else if ciIsPrefix "location/".data t then some (t.drop 9)
            else if ciIsPrefix "store/".data t then some (t.drop 6)
            else none
          match try1 with
          | some after =>
            let run := after.takeWhile isSlugChar
            if run ≠ [] &&
                (after.drop run.length = [] ∨
                 (after.drop run.length).headD ' ' = '/') then
              some run
            else none
          | none => none
        else none
      match here with
      | some g => some g
      | none => urlSlugGo fuel t

/-- First char upper-cased, rest unchanged: `p.charAt(0).toUpperCase() + p.slice(1)`. -/
def capFirst (p : String) : String :=
  match p.data with
  | c :: t => ⟨jsToUpperChar c :: t⟩
  | [] => ""

/-- `extractLocationFromUrl(url)` (lines 1369-1405), returned as a
`(city, state)` pair. -/
def extractLocationFromUrl (url : String) : String × String :=
  if url = "" then ("", "")
  else
    match urlSlugGo url.data.length url.data with
    | none => ("", "")
    | some run =>
      let slug := jsToLower ⟨run⟩
      let parts := jsSplit slug '-'
      let stateIdx := (List.range parts.length).reverse.find? fun i =>
        let p := parts.getD i ""
        p.length = 2 && STATE_ABBREVS.contains (jsToUpper p)
      match stateIdx with
      | none => ("", "")
      | some i =>
        if i < 1 then ("", "")
        else
          let state := jsToUpper (parts.getD i "")
          let cityParts := (parts.take i).filter fun p =>
            !(["ritas", "of", "loc", "store", "location"].contains p) &&
            !(p ≠ "" && p.data.all isDigitChar)
          if cityParts.length = 0 then ("", "")
          else (String.intercalate " " (cityParts.map capFirst), state)

/-- JS `Map.get(k) || ''` over an association list. -/
def mapGetOr (m : List (String × String)) (k : String) : String :=
  match m.find? (fun p => p.1 = k) with
  | some p => p.2
  | none => ""

/-- `getCityFromPostcode(postcode)` (lines 95-100): strip non-digits,
take the first five, look up in the ZIP→city map. -/
def getCityFromPostcode (zipToCity : List (String × String))
    (postcode : String) : String :=
  if postcode = "" then ""
  else mapGetOr zipToCity ⟨(postcode.data.filter isDigitChar).take 5⟩

/-- `getStateFromPostcode(postcode)` (lines 105-110). -/
def getStateFromPostcode (zipToState : List (String × String))
    (postcode : String) : String :=
  if postcode = "" then ""
  else mapGetOr zipToState ⟨(postcode.data.filter isDigitChar).take 5⟩

/-- `getProperty(props, ...keys)` (lines 115-120): the first truthy value
among the keys, else the empty string. -/
def getProperty (props : List (String × String)) : List String → String
  | [] => ""
  | k :: rest =>
    let v := tagOr props k
    if v ≠ "" then v else getProperty props rest

/-- Lazy leftmost search of `` new RegExp(`([A-Za-z\s]+?)\s+${stateName}`, 'i') ``
(line 1569), inner loop: extend the group one class character at a time,
checking before each extension whether a whitespace run followed by the
state name begins here.  `acc` holds the group so far, reversed. -/
def fb3Inner (fuel : ℕ) (sname : List Char) (acc : List Char)
    (l : List Char) : Option (List Char) :=
  match fuel with
  | 0 => none
  | fuel + 1 =>
    if headIsWs l && ciIsPrefix sname (l.dropWhile jsIsWs) then
      some acc.reverse
    else
      match l with
      | c :: t =>
        if isAsciiAlpha c || jsIsWs c then fb3Inner fuel sname (c :: acc) t
        else none
      | [] => none

/-- Outer loop of the fallback-3 regex search: try each start position
left to right. -/
def fb3Outer (fuel : ℕ) (sname : List Char) (l : List Char) :
    Option (List Char) :=
  match fuel with
  | 0 => none
  | fuel + 1 =>
    match l with
    | [] => none
    | c :: t =>
      let here :=
        if isAsciiAlpha c || jsIsWs c then fb3Inner t.length sname [c] t
        else none
      match here with
      | some g => some g
      | none => fb3Outer fuel sname t

/-- Split a trimmed string on whitespace runs (`.trim().split(/\s+/)`). -/
def wordsOf (fuel : ℕ) (l : List Char) : List (List Char) :=
  match fuel with
  | 0 => []
  | fuel + 1 =>
    match l with
    | [] => []
    | _ =>
      let w := l.takeWhile fun c => !jsIsWs c
      let r := (l.dropWhile fun c => !jsIsWs c).dropWhile jsIsWs
      w :: wordsOf fuel r

/-- Fallback 3 of the map stage (lines 1566-1582): for each full state name
in order, search `addr:full` for a lazily-captured run of letters and
whitespace followed by the state name; accept the last word of the capture
when it is longer than one character, does not start with a digit and is
not a street-type word. -/
def fallback3From (addrFull : String) : List String → String
  | [] => ""
  | sname :: rest =>
    match fb3Outer addrFull.data.length sname.data addrFull.data with
    | some g =>
      let words := wordsOf g.length (jsTrim ⟨g⟩).data
      let lastWord : String := ⟨words.getLastD []⟩
      if lastWord ≠ "" && lastWord.length > 1 && !patStartsDigit lastWord &&
          !(["blvd", "st", "ave", "rd", "dr", "ln", "ct", "way", "pk",
             "pkwy", "hwy"].contains (jsToLower lastWord)) then
        lastWord
      else fallback3From addrFull rest
    | none => fallback3From addrFull rest

def fallback3 (addrFull : String) : String :=
  fallback3From addrFull STATE_NAMES

/-! ## The ATP pipeline of `extract-brand.js` (lines 1516-1617) -/

/-- A GeoJSON feature as the script consumes it: the string properties, and
the optional `geometry.coordinates` pair in GeoJSON `(lon, lat)` order.
`coords = none` models a feature whose `geometry` or `coordinates` is
absent. -/
structure AtpFeature where
  props : List (String × String)
  coords : Option (ℚ × ℚ)
deriving Repr, DecidableEq

/-- The combined filter of the pipeline: the structural
`f.properties && f.geometry && f.geometry.coordinates` filter (line 1517)
and the predicate of lines 1518-1546, as one conjunction evaluated in
source order. -/
def atpFilter (filterBrand : String) (f : AtpFeature) : Bool :=
  f.coords.isSome &&
  (if filterBrand ≠ "" then tagOr f.props "brand" = filterBrand else true) &&
  (let country := getProperty f.props ["addr:country", "country"]
   country = "US" || country = "") &&
  (let city0 := getProperty f.props ["addr:city", "city"]
   let state := getProperty f.props ["addr:state", "state"]
   !(city0 = "Test" && state = "AL") &&
   (let city := if city0 = "" && tagOr f.props "addr:full" ≠ "" then
        extractCityFromFull (tagOr f.props "addr:full")
      else city0
    !isHotelOrResortName city &&
    (let canDeriveCityFromName :=
       tagOr f.props "name" ≠ "" && strContains (tagOr f.props "name") " of "
     !(isInvalidCityName city && tagOr f.props "addr:full" = "" &&
       tagOr f.props "addr:postcode" = "" && tagOr f.props "postcode" = "" &&
       !canDeriveCityFromName))))

/-- The map stage of the pipeline (lines 1547-1612).  The structural filter
guarantees `coords` is present for every mapped feature; the `(0, 0)`
default is unreachable through `atpLocations`. -/
def atpToLocation (zipToCity zipToState : List (String × String))
    (aliases : AliasTable) (displayName : String) (f : AtpFeature) : Location :=
  let props := f.props
  let state0 := getProperty props ["addr:state", "state"]
  let city0 := getProperty props ["addr:city", "city"]
  let address := getProperty props
    ["addr:street_address", "addr:street", "street_address", "addr:full"]
  let city1 := if city0 = "" then extractCityFromFull (tagOr props "addr:full")
    else city0
  let city2 := if city1 = "" then
      extractCityFromName (tagOr props "name") displayName
    else city1
  let city3 := if city2 = "" && tagOr props "addr:full" ≠ "" then
      fallback3 (tagOr props "addr:full")
    else city2
  let postcode := getProperty props ["addr:postcode", "postcode"]
  let city4 := if city3 = "" then getCityFromPostcode zipToCity postcode
    else city3
  let state1 := if state0 = "" then getStateFromPostcode zipToState postcode
    else state0
  let cs : String × String :=
    if city4 = "" || state1 = "" then
      let u := extractLocationFromUrl
        (strOr (tagOr props "@source_uri") (tagOr props "website"))
      (if city4 = "" && u.1 ≠ "" then u.1 else city4,
       if state1 = "" && u.2 ≠ "" then u.2 else state1)
    else (city4, state1)
  let cleanedCity := cleanCity cs.1
  let normalizedCity := normalizeCity aliases cleanedCity cs.2
  let c := f.coords.getD (0, 0)
  { lat := round6 c.2
    lon := round6 c.1
    city := normalizedCity
    state := cs.2
    address := address
    name := "" }

/-- `locations` (line 1516): filter then map. -/
def atpLocations (zipToCity zipToState : List (String × String))
    (aliases : AliasTable) (displayName filterBrand : String)
    (features : List AtpFeature) : List Location :=
  (features.filter (atpFilter filterBrand)).map
    (atpToLocation zipToCity zipToState aliases displayName)

/-- The brand record the script writes. -/
structure Brand where
  key : String
  displayName : String
  category : String
  useLocationName : Bool
  locations : List Location
deriving Repr, DecidableEq

/-- The tail of `extract-brand.js` (lines 1514-1617 and the output object):
build the locations, exit with `No US locations found` when none survive,
otherwise emit the brand record (`useLocationName` is `false` for ATP
extractions). -/
def processBrand (zipToCity zipToState : List (String × String))
    (aliases : AliasTable) (brandKey displayName category filterBrand : String)
    (features : List AtpFeature) : Except String Brand :=
  let locations :=
    atpLocations zipToCity zipToState aliases displayName filterBrand features
  if locations.length = 0 then Except.error "No US locations found"
  else Except.ok
    { key := brandKey
      displayName := displayName
      category := category
      useLocationName := false
      locations := locations }

/-- The raw record of the C7 scenario: empty city and state tags,
`addr:full` of "123 Main St, Cambridge, MA 02141", name "Acme Store" and
coordinates (42.373611, -71.097623) inside Massachusetts, given in GeoJSON
(lon, lat) order. -/
def c7fixture : AtpFeature :=
  { props := [("addr:full", "123 Main St, Cambridge, MA 02141"),
              ("name", "Acme Store")]
    coords := some (-71097623/1000000, 42373611/1000000) }

/-- A raw record with well-formed tags but out-of-range coordinates:
longitude 200 and latitude 95, given in GeoJSON (lon, lat) order. -/
def c9fixture : AtpFeature :=
  { props := [("addr:city", "Springfield"), ("addr:state", "IL")]
    coords := some (200, 95) }

/-- The canonical location the pipeline emits for `c9fixture`. -/
def c9loc : Location :=
  { lat := 95, lon := 200, city := "Springfield", state := "IL",
    address := "", name := "" }

/-! ## Theorems: OSM deduplication (C4), boundary validation (C2, C3),
city plausibility (C8, C10) -/

/-- Keys surviving `keepFirstByKey` all occur among the input keys. -/
theorem keepFirstByKey_keys_sub {κ α : Type} [DecidableEq κ]
    (l : List (κ × α)) (k : κ)
    (h : k ∈ (keepFirstByKey l).map Prod.fst) : k ∈ l.map Prod.fst := by
  match l with
  | [] => simp [keepFirstByKey] at h
  | (k0, a) :: t =>
    rw [keepFirstByKey] at h
    simp only [List.map_cons, List.mem_cons] at h ⊢
    rcases h with h | h
    · exact Or.inl h
    · right
      have hmem := keepFirstByKey_keys_sub (t.filter fun p => p.1 ≠ k0) k h
      rcases List.mem_map.mp hmem with ⟨x, hx, hfst⟩
      exact hfst ▸ List.mem_map_of_mem Prod.fst (List.mem_of_mem_filter hx)
termination_by l.length
decreasing_by
  simp only [List.length_cons]
  exact Nat.lt_succ_of_le (List.length_filter_le _ _)

/-- `keepFirstByKey` produces pairwise-distinct keys. -/
theorem keepFirstByKey_keys_nodup {κ α : Type} [DecidableEq κ]
    (l : List (κ × α)) : ((keepFirstByKey l).map Prod.fst).Nodup := by
  match l with
  | [] => simp [keepFirstByKey]
  | (k0, a) :: t =>
    rw [keepFirstByKey]
    simp only [List.map_cons, List.nodup_cons]
    refine ⟨fun hmem => ?_, keepFirstByKey_keys_nodup _⟩
    have hsub := keepFirstByKey_keys_sub (t.filter fun p => p.1 ≠ k0) k0 hmem
    rcases List.mem_map.mp hsub with ⟨x, hx, hfst⟩
    have hne := List.of_mem_filter hx
    simp only [decide_eq_true_eq] at hne
    exact hne hfst
termination_by l.length
decreasing_by
  simp only [List.length_cons]
  exact Nat.lt_succ_of_le (List.length_filter_le _ _)

/-- The accumulator form of the OSM dedup loop computes `keepFirstByKey` on
the guarded stream, restricted to keys not yet seen. -/
theorem osmLoop_eq_keepFirst (uln : Bool) (els : List OsmElement)
    (seen : List ((Bool × ℤ) × (Bool × ℤ))) :
    osmLoop uln els seen =
      (keepFirstByKey ((osmStream uln els).filter
        (fun p => !seen.contains p.1))).map Prod.snd := by
  induction els generalizing seen with
  | nil => simp [osmLoop, osmStream, keepFirstByKey]
  | cons e rest ih =>
    cases hg : osmGuard e with
    | none =>
      have hstream : osmStream uln (e :: rest) = osmStream uln rest := by
        simp [osmStream, List.filterMap_cons, hg]
      have hloop : osmLoop uln (e :: rest) seen = osmLoop uln rest seen := by
        rw [osmLoop, hg]
      rw [hloop, hstream]
      exact ih seen
    | some c =>
      obtain ⟨lat, lon⟩ := c
      have hstream : osmStream uln (e :: rest) =
          (osmCoordKey lat lon, mkOsmLocation uln e.tags lat lon) ::
            osmStream uln rest := by
        simp [osmStream, List.filterMap_cons, hg]
      rw [hstream, List.filter_cons]
      cases hc : seen.contains (osmCoordKey lat lon) with
      | true =>
        have hm : osmCoordKey lat lon ∈ seen := by simpa using hc
        have hloop : osmLoop uln (e :: rest) seen = osmLoop uln rest seen := by
          rw [osmLoop, hg]
          simp [hm]
        rw [hloop]
        simp only [hc, Bool.not_true]
        rw [if_neg (by simp)]
        exact ih seen
      | false =>
        have hm : osmCoordKey lat lon ∉ seen := by simpa using hc
        have hloop : osmLoop uln (e :: rest) seen =
            mkOsmLocation uln e.tags lat lon ::
              osmLoop uln rest (osmCoordKey lat lon :: seen) := by
          rw [osmLoop, hg]
          simp [hm]
        rw [hloop]
        simp only [hc, Bool.not_false]
        rw [if_pos trivial, keepFirstByKey, List.map_cons]
        refine congrArg _ ?_
        rw [ih (osmCoordKey lat lon :: seen)]
        refine congrArg _ (congrArg _ ?_)
        rw [List.filter_filter]
        refine List.filter_congr fun x _ => ?_
        by_cases hx : x.1 = osmCoordKey lat lon
        · simp [hx, List.contains_cons, hc]
        · simp [hx, List.contains_cons, Bool.and_comm]

/-- Claim C4 (amended): the assembled OSM collection keeps, for every
4-decimal dedup key of the raw coordinates, exactly the first surviving
record's location, and no two emitted entries share that raw-coordinate key
(the stored coordinates themselves are rounded to 5 decimals and may
coincide, see the counterexample). -/
theorem osm_dedup_first_seen_by_raw_key (uln : Bool) (els : List OsmElement) :
    osmLocations uln els = (keepFirstByKey (osmStream uln els)).map Prod.snd ∧
    ((keepFirstByKey (osmStream uln els)).map Prod.fst).Nodup := by
  refine ⟨?_, keepFirstByKey_keys_nodup _⟩
  have h := osmLoop_eq_keepFirst uln els []
  simpa [osmLocations, List.contains_nil] using h


/-- Claim C4 (counterexample): the two raw records have distinct 4-decimal
dedup keys, so both are emitted; yet their stored, 5-decimal-rounded
coordinate pairs are identical (40.00005, -74.5), so the emitted collection
contains two locations whose (lat, lon) pairs agree — and in particular
agree after rounding to 4 decimal digits, contradicting the claimed
invariant. -/
theorem osm_dedup_shared_rounded_pair :
    (osmLocations false [osmDupA, osmDupB]).map
        (fun l => ((l.lat, l.lon), (toFixedVal 4 l.lat, toFixedVal 4 l.lon))) =
      [(((40.00005 : ℚ), (-74.5 : ℚ)), ((40.0001 : ℚ), (-74.5 : ℚ))),
       (((40.00005 : ℚ), (-74.5 : ℚ)), ((40.0001 : ℚ), (-74.5 : ℚ)))] := by
  decide

/-- Claim C2: for every location whose state has a known bounding box that
does not wrap the antimeridian (west ≤ east), the geographic validator flags
a mismatch if and only if lat > north, lat < south, lon > east or
lon < west. -/
theorem boundary_mismatch_iff_outside_box (bs : List (String × Bounds))
    (loc : Location) (b : Bounds) (hb : lookupBounds bs loc.state = some b)
    (hwe : b.west ≤ b.east) :
    stateBoundaryErrors bs [loc] ≠ [] ↔
      (loc.lat > b.north ∨ loc.lat < b.south ∨
       loc.lon > b.east ∨ loc.lon < b.west) := by
  have hwrap : (decide (b.west > 0) && decide (b.east < 0)) = false := by
    by_cases h0 : b.west > 0
    · have h1 : ¬ b.east < 0 := by intro h; linarith
      simp [h1]
    · simp [h0]
  have hchar : stateBoundaryErrors bs [loc] ≠ [] ↔
      isInState loc.lat loc.lon b = false := by
    cases hi : isInState loc.lat loc.lon b <;>
      simp [stateBoundaryErrors, List.filterMap_cons, List.filterMap_nil, hb, hi]
  rw [hchar, isInState]
  simp only [hwrap, Bool.false_eq_true, if_false]
  rw [Bool.eq_false_iff]
  simp only [ne_eq, Bool.and_eq_true, decide_eq_true_eq, not_and_or, not_le,
    ge_iff_le, gt_iff_lt]
  tauto

/-- Witness for C2: a location claiming DC at the origin is flagged, via the
theorem applied at the DC bounding box. -/
theorem boundary_mismatch_iff_outside_box_witness :
    stateBoundaryErrors [("DC", dcBounds)]
      [{ lat := 0, lon := 0, city := "X", state := "DC",
         address := "", name := "" }] ≠ [] :=
  (boundary_mismatch_iff_outside_box [("DC", dcBounds)]
    { lat := 0, lon := 0, city := "X", state := "DC", address := "", name := "" }
    dcBounds rfl (by norm_num [dcBounds])).mpr
    (Or.inr (Or.inl (by norm_num [dcBounds])))

/-- Claim C3: for a bounding box crossing the antimeridian (west > 0 and
east < 0), a point is classified inside iff south ≤ lat ≤ north and
(lon ≥ west or lon ≤ east); for the box west=179, east=-130, north=72,
south=51, the point (61, 179.5) is inside and (61, 0) is outside. -/
theorem isInState_wraparound :
    (∀ (b : Bounds) (lat lon : ℚ), 0 < b.west → b.east < 0 →
      (isInState lat lon b = true ↔
        (b.south ≤ lat ∧ lat ≤ b.north ∧ (lon ≥ b.west ∨ lon ≤ b.east)))) ∧
    isInState 61 179.5 wrapAroundBox = true ∧
    isInState 61 0 wrapAroundBox = false := by
  refine ⟨fun b lat lon hw he => ?_, by decide, by decide⟩
  rw [isInState]
  have hcond : (decide (b.west > 0) && decide (b.east < 0)) = true := by
    simp [hw, he]
  simp only [hcond, if_true, Bool.and_eq_true, Bool.or_eq_true,
    decide_eq_true_eq, ge_iff_le]
  tauto

/-- Witness for C3: the universally quantified part applied at the concrete
wraparound box and the point (61, 179.5). -/
theorem isInState_wraparound_witness :
    wrapAroundBox.south ≤ (61 : ℚ) ∧ (61 : ℚ) ≤ wrapAroundBox.north ∧
      ((179.5 : ℚ) ≥ wrapAroundBox.west ∨ (179.5 : ℚ) ≤ wrapAroundBox.east) :=
  (isInState_wraparound.1 wrapAroundBox 61 179.5 (by decide) (by decide)).mp
    (by decide)

/-- Claim C8 (counterexample): a location in a Canadian province with an
empty city string is classified suspicious (the emptiness check precedes the
Canadian exemption), contradicting the claim that Canadian locations are
never suspicious regardless of their city string. -/
theorem canadian_empty_city_is_suspicious :
    isSuspicious [] "" "ON" = true ∧ CANADIAN_PROVINCES.contains "ON" = true := by
  decide

/-- Claim C8 (amended): for every location whose state is a Canadian
province code and whose city string is non-empty after trimming, the
city-plausibility validator never classifies it as suspicious. -/
theorem canadian_nonblank_never_suspicious (validCities : List String)
    (city state : String) (hcity : jsTrim city ≠ "")
    (hca : CANADIAN_PROVINCES.contains state = true) :
    isSuspicious validCities city state = false := by
  have h0 : city ≠ "" := by
    intro h
    apply hcity
    rw [h]
    rfl
  rw [isSuspicious]
  have hguard : (decide (city = "") || decide (jsTrim city = "")) = false := by
    simp [h0, hcity]
  rw [hguard]
  simp only [Bool.false_eq_true, if_false]
  have hmem : state ∈ CANADIAN_PROVINCES := by simpa using hca
  simp [hmem]

/-- Witness for the amended C8: a Toronto location is not suspicious. -/
theorem canadian_nonblank_never_suspicious_witness :
    isSuspicious [] "Toronto" "ON" = false :=
  canadian_nonblank_never_suspicious [] "Toronto" "ON" (by decide) (by decide)

/-- Claim C10: for every non-blank city string and non-Canadian state, the
plausibility check returns true iff the lowercased key is absent from the
valid-city set for both the raw city and its suffix-stripped form; the
structural bad-name patterns never change the outcome. -/
theorem isSuspicious_iff_not_in_valid_set (validCities : List String)
    (city state : String) (hcity : jsTrim city ≠ "")
    (hca : CANADIAN_PROVINCES.contains state = false) :
    isSuspicious validCities city state = true ↔
      (validCities.contains (jsToLower city ++ "|" ++ state) = false ∧
       validCities.contains
         (jsToLower (jsTrim (stripCommonSuffix city)) ++ "|" ++ state) = false) := by
  have h0 : city ≠ "" := by
    intro h
    apply hcity
    rw [h]
    rfl
  rw [isSuspicious]
  have hguard : (decide (city = "") || decide (jsTrim city = "")) = false := by
    simp [h0, hcity]
  rw [hguard]
  have hmem : state ∉ CANADIAN_PROVINCES := by simpa using hca
  simp only [Bool.false_eq_true, if_false, hmem, if_neg, List.elem_eq_mem]
  cases h1 : validCities.contains (jsToLower city ++ "|" ++ state) with
  | true => simp_all
  | false =>
    cases h2 : validCities.contains
        (jsToLower (jsTrim (stripCommonSuffix city)) ++ "|" ++ state) with
    | true => simp_all
    | false =>
      simp_all

/-- Witness for C10: the iff at a concrete valid-city set and city. -/
theorem isSuspicious_iff_not_in_valid_set_witness :
    isSuspicious ["cambridge|MA"] "Cambridge" "MA" = true ↔
      ((["cambridge|MA"] : List String).contains
          (jsToLower "Cambridge" ++ "|" ++ "MA") = false ∧
       (["cambridge|MA"] : List String).contains
          (jsToLower (jsTrim (stripCommonSuffix "Cambridge")) ++ "|" ++ "MA")
         = false) :=
  isSuspicious_iff_not_in_valid_set ["cambridge|MA"] "Cambridge" "MA"
    (by decide) (by decide)

/-- Claim C1 (evaluation at the failing input): the clean-then-normalize
pipeline is not idempotent.  With an empty alias table, cleaning and
normalizing "Montreal" in state QC yields "Montréal" via the Québec
override table; running the pipeline again over its own output yields
"MontréAl": the case-repair regex of line 493 uses the ASCII-only word
boundary of JS regexes, so the non-ASCII é opens a new "word" and the
following letter is upper-cased, corrupting the already-canonical name. -/
theorem c1_pipeline_not_idempotent :
    normalizeCity [] (cleanCity "Montreal") "QC" = "Montréal" ∧
    normalizeCity [] (cleanCity (normalizeCity [] (cleanCity "Montreal") "QC")) "QC"
      = "MontréAl" := by decide

/-- Claim C5 (counterexample): a null table entry does not short-circuit
normalization for every city string, because the lookup happens only after
the case-repair stage.  The entry for (MD, "BELTSVILLE PRINCE GEORGE") is
null, yet normalizing "BELTSVILLE PRINCE GEORGE" in MD returns the
case-repaired "Beltsville Prince George", not the empty string: the repaired
spelling no longer matches the table key. -/
theorem c5_counterexample_uppercase_key :
    aliasEntry [("MD", [("BELTSVILLE PRINCE GEORGE", none)])] "MD"
        "BELTSVILLE PRINCE GEORGE" = some none ∧
    normalizeCity [("MD", [("BELTSVILLE PRINCE GEORGE", none)])]
        "BELTSVILLE PRINCE GEORGE" "MD" = "Beltsville Prince George" := by
  decide

/-- Helper for C5: when the alias table maps the (state, city) key to null,
`applyCityAlias` returns the empty string (for truthy city and state). -/
theorem applyCityAlias_null_entry (aliases : AliasTable) (c state : String)
    (hp : c ≠ "") (hs : state ≠ "")
    (he : aliasEntry aliases state c = some none) :
    applyCityAlias aliases c state = "" := by
  cases hfind : List.find? (fun p => p.1 = state) aliases with
  | none => simp [aliasEntry, hfind] at he
  | some p =>
    obtain ⟨ps, sa⟩ := p
    cases hfind2 : List.find? (fun q => q.1 = c) sa with
    | none => simp [aliasEntry, hfind, hfind2] at he
    | some q =>
      obtain ⟨qs, v⟩ := q
      have hv : v = none := by simpa [aliasEntry, hfind, hfind2] using he
      subst hv
      simp [applyCityAlias, hp, hs, hfind, hfind2]

/-- Claim C5 (amended): when the alias table entry for the state and the
case-repaired city (the key the code actually looks up) is null,
normalization returns the empty string immediately, regardless of the
later rule stages. -/
theorem c5_null_alias_returns_empty (aliases : AliasTable)
    (city state : String) (hc : city ≠ "") (hs : state ≠ "")
    (hp : preAliasStage city ≠ "")
    (he : aliasEntry aliases state (preAliasStage city) = some none) :
    normalizeCity aliases city state = "" := by
  have h2 := applyCityAlias_null_entry aliases (preAliasStage city) state hp hs he
  simp [normalizeCity, hc, h2]

/-- Witness for C5 at the spec's own instance: the entry for
(MD, "Beltsville Prince George") is null and the city is already in
repaired case, so normalization returns the empty string. -/
theorem c5_null_alias_returns_empty_witness :
    normalizeCity [("MD", [("Beltsville Prince George", none)])]
      "Beltsville Prince George" "MD" = "" :=
  c5_null_alias_returns_empty [("MD", [("Beltsville Prince George", none)])]
    "Beltsville Prince George" "MD" (by decide) (by decide) (by decide)
    (by decide)

/-- Claim C6: when filtering leaves zero valid locations, processing halts
with the error "No US locations found" and no brand collection is emitted:
the result is never `Except.ok` for such a batch, so an empty collection is
never silently written. -/
theorem c6_empty_batch_halts_with_error (zc zs : List (String × String))
    (al : AliasTable) (k d cat fb : String) (fs : List AtpFeature)
    (h : atpLocations zc zs al d fb fs = []) :
    processBrand zc zs al k d cat fb fs =
        Except.error "No US locations found" ∧
    ∀ b : Brand, processBrand zc zs al k d cat fb fs ≠ Except.ok b := by
  have hp : processBrand zc zs al k d cat fb fs =
      Except.error "No US locations found" := by
    simp [processBrand, h]
  exact ⟨hp, fun b hb => by rw [hp] at hb; exact Except.noConfusion hb⟩

/-- Witness for C6: the empty feature batch halts with the error. -/
theorem c6_empty_batch_halts_with_error_witness :
    processBrand [] [] [] "k" "Brand" "cat" "" [] =
        Except.error "No US locations found" ∧
    ∀ b : Brand, processBrand [] [] [] "k" "Brand" "cat" "" [] ≠
        Except.ok b :=
  c6_empty_batch_halts_with_error [] [] [] "k" "Brand" "cat" "" [] (by rfl)

/-- Claim C7 (counterexample): for the raw record with empty city and state
tags, addr:full "123 Main St, Cambridge, MA 02141" and name "Acme Store",
the pipeline extracts the city "Cambridge" from addr:full, but the state of
the produced location is the empty string, not "MA": no stage of the
fallback chain extracts a state from addr:full. -/
theorem c7_counterexample_state_not_extracted :
    atpLocations [] [] [] "Acme Store" "" [c7fixture] =
      [{ lat := 42373611/1000000, lon := -71097623/1000000,
         city := "Cambridge", state := "",
         address := "123 Main St, Cambridge, MA 02141", name := "" }] ∧
    ∀ l ∈ atpLocations [] [] [] "Acme Store" "" [c7fixture],
      l.state ≠ "MA" := by decide

/-- Claim C7 (amended): the pipeline produces city "Cambridge" but state ""
for the scenario's record, and the geographic validator does not flag the
location — vacuously, because its empty state has no bounding box in any
table that lacks an entry for the empty string, so the location is
skipped. -/
theorem c7_city_extracted_state_empty (bs : List (String × Bounds))
    (hb : lookupBounds bs "" = none) :
    (atpToLocation [] [] [] "Acme Store" c7fixture).city = "Cambridge" ∧
    (atpToLocation [] [] [] "Acme Store" c7fixture).state = "" ∧
    stateBoundaryErrors bs
      [atpToLocation [] [] [] "Acme Store" c7fixture] = [] := by
  have hs : (atpToLocation [] [] [] "Acme Store" c7fixture).state = "" := by
    decide
  refine ⟨by decide, hs, ?_⟩
  simp [stateBoundaryErrors, hs, hb]

/-- Witness for C7 at the DC bounding-box table, which has no entry for
the empty-string state. -/
theorem c7_city_extracted_state_empty_witness :
    (atpToLocation [] [] [] "Acme Store" c7fixture).city = "Cambridge" ∧
    (atpToLocation [] [] [] "Acme Store" c7fixture).state = "" ∧
    stateBoundaryErrors [("DC", dcBounds)]
      [atpToLocation [] [] [] "Acme Store" c7fixture] = [] :=
  c7_city_extracted_state_empty [("DC", dcBounds)] (by decide)

/-- Claim C9 (counterexample): the feature filter performs no coordinate
range check.  A record with latitude 95 and longitude 200 passes the filter
and is emitted unchanged, so the batch violates the claimed
[-90, 90] × [-180, 180] invariant. -/
theorem c9_counterexample_out_of_range :
    atpLocations [] [] [] "X" "" [c9fixture] = [c9loc] ∧
    ¬ (∀ l ∈ atpLocations [] [] [] "X" "" [c9fixture],
        -90 ≤ l.lat ∧ l.lat ≤ 90 ∧ -180 ≤ l.lon ∧ l.lon ≤ 180) := by decide

/-- Claim C9 (amended): every emitted location does have coordinates
present — it arises from a feature that passed the filter, whose
`coords` field is therefore `some c` — and its lat and lon are exactly the
6-decimal roundings of the raw coordinates (city, state and address are
strings by construction); but no range constraint is imposed on them. -/
theorem c9_locations_round_filtered_coords (zc zs : List (String × String))
    (al : AliasTable) (d fb : String) (fs : List AtpFeature) (l : Location)
    (hl : l ∈ atpLocations zc zs al d fb fs) :
    ∃ f ∈ fs, atpFilter fb f = true ∧ ∃ c : ℚ × ℚ, f.coords = some c ∧
      l.lat = round6 c.2 ∧ l.lon = round6 c.1 := by
  simp only [atpLocations, List.mem_map, List.mem_filter] at hl
  obtain ⟨f, ⟨hmem, hfil⟩, rfl⟩ := hl
  have hsome : f.coords.isSome = true := by
    unfold atpFilter at hfil
    cases h : f.coords.isSome
    · rw [h] at hfil; simp at hfil
    · rfl
  obtain ⟨c, hc⟩ := Option.isSome_iff_exists.mp hsome
  refine ⟨f, hmem, hfil, c, hc, ?_, ?_⟩
  · simp [atpToLocation, hc]
  · simp [atpToLocation, hc]

/-- Witness for C9: the out-of-range location of the counterexample batch
indeed carries the 6-decimal roundings of its feature's raw coordinates. -/
theorem c9_locations_round_filtered_coords_witness :
    ∃ f ∈ [c9fixture], atpFilter "" f = true ∧ ∃ c : ℚ × ℚ,
      f.coords = some c ∧ c9loc.lat = round6 c.2 ∧ c9loc.lon = round6 c.1 :=
  c9_locations_round_filtered_coords [] [] [] "X" "" [c9fixture] c9loc
    (by decide)
